import Mathlib

/-!
Verification of the GlitchBook glitch-transform library.

The TypeScript source operates on `ImageData` values (width, height, and a
`Uint8ClampedArray` of RGBA bytes).  We embed:

* JS numbers as `ℚ` (all arithmetic appearing in the value-relevant claims is
  exact in double precision, so `ℚ` is a faithful carrier there; the one
  transcendental operation, `Math.pow`, is kept as an abstract parameter `pw`
  over which every theorem quantifies, and the one place a double-precision
  product of two int32 values can round, the coordinate hash, is modelled
  exactly with `roundDouble`);
* `Uint8ClampedArray` buffers as `Buf` (a length plus a valuation); writes
  clamp to `[0,255]` and round half-to-even exactly as the typed array does,
  and out-of-range or fractional indices are ignored on write, `undefined`
  (modelled as 0) on read;
* each transform's `apply` as a state-passing function over `St`, a record of
  the input buffer and the output buffer, so that "the input is never
  mutated" is a provable statement about the translation rather than an
  artifact of the embedding.  Reads of the destructured `data` binding read
  the input buffer snapshot, writes `outData[i] = v` go through `writeOut`.

Documentation-only fields of the catalog records (`description`,
`technicalDetails`, `bugCode`, `fixCode`, parameter descriptions) are inert
strings in the source and are omitted here.
-/

namespace GlitchBook

/-! ## JS number primitives -/

/-- `Math.trunc` as an integer (used for the semantics of `%`). -/
def jsTruncZ (q : ℚ) : ℤ := if q < 0 then -Int.floor (-q) else Int.floor q

/-- `Math.floor`. -/
def jsFloor (q : ℚ) : ℚ := (Int.floor q : ℤ)

/-- `Math.ceil`. -/
def jsCeil (q : ℚ) : ℚ := (Int.ceil q : ℤ)

/-- `Math.round` (JS rounds half-up, also for negatives). -/
def jsRound (q : ℚ) : ℚ := (Int.floor (q + 1/2) : ℤ)

/-- `Math.abs`. -/
def jsAbs (q : ℚ) : ℚ := |q|

/-- The JS `%` operator on finite numbers: remainder with the sign of the
dividend, `a - b * trunc(a / b)`.  A zero divisor yields `NaN` in JS; no
transform stores such a value at a claim-relevant place, we model it as 0. -/
def jsMod (a b : ℚ) : ℚ := if b = 0 then 0 else a - b * (jsTruncZ (a / b) : ℤ)

/-- Round half to even, the rounding mode of `Uint8ClampedArray` stores. -/
def roundTiesEven (q : ℚ) : ℤ :=
  let f := Int.floor q
  let r := q - f
  if r < 1/2 then f else if 1/2 < r then f + 1 else if f % 2 = 0 then f else f + 1

/-- The `Uint8ClampedArray` conversion: clamp to `[0,255]`, round ties to
even. -/
def u8clamp (q : ℚ) : ℕ :=
  if q ≤ 0 then 0 else if 255 ≤ q then 255 else (roundTiesEven q).toNat

/-! ## 32-bit operations (JS bitwise operators coerce through `ToInt32`) -/

/-- The unsigned-32 bit pattern of `ToInt32(q)`. -/
def u32bits (q : ℚ) : ℕ := ((jsTruncZ q) % 4294967296).toNat

/-- The signed value of a 32-bit pattern. -/
def s32val (n : ℕ) : ℤ := if n < 2147483648 then (n : ℤ) else (n : ℤ) - 4294967296

/-- JS `a & b`. -/
def jsAnd (a b : ℚ) : ℚ := (s32val (Nat.land (u32bits a) (u32bits b)) : ℤ)

/-- JS `a | b`. -/
def jsOr (a b : ℚ) : ℚ := (s32val (Nat.lor (u32bits a) (u32bits b)) : ℤ)

/-- JS `a ^ b`. -/
def jsXor (a b : ℚ) : ℚ := (s32val (Nat.xor (u32bits a) (u32bits b)) : ℤ)

/-- JS `a << b`. -/
def jsShl (a b : ℚ) : ℚ :=
  (s32val ((Nat.shiftLeft (u32bits a) (u32bits b % 32)) % 4294967296) : ℤ)

/-- JS `a >> b` (sign-propagating shift, i.e. floor division by a power of
two). -/
def jsShr (a b : ℚ) : ℚ :=
  (Int.fdiv (s32val (u32bits a)) (2 ^ (u32bits b % 32)) : ℤ)

/-- Round an integer to the nearest IEEE-754 double (53 significand bits,
ties to even); exact for magnitudes below `2^53`. -/
def roundDoubleN (m : ℕ) : ℕ :=
  if m < 9007199254740992 then m else
    let k := m.log2 - 52
    let q := m / 2 ^ k
    let r := m % 2 ^ k
    let half := 2 ^ (k - 1)
    if half < r ∨ (r = half ∧ q % 2 = 1) then (q + 1) * 2 ^ k else q * 2 ^ k

/-- `roundDoubleN` extended to integers. -/
def roundDouble (n : ℤ) : ℤ :=
  if n < 0 then -(roundDoubleN (-n).toNat : ℤ) else (roundDoubleN n.toNat : ℤ)

/-- The double-precision product of two integer-valued JS numbers (used in
the coordinate hash, whose int32 product exceeds 53 bits). -/
def jsMulInt (a b : ℚ) : ℚ := (roundDouble (jsTruncZ a * jsTruncZ b) : ℤ)

/-! ## Parameter values (`GlitchParams`) -/

/-- A parameter value: `number | boolean | string`. -/
inductive PVal where
  | num (q : ℚ)
  | bool (b : Bool)
  | str (s : String)
deriving DecidableEq

/-- A parameter map, as passed to `apply`. -/
abbrev GlitchParams := List (String × PVal)

/-- Property lookup `params.k`. -/
def lookupP (p : GlitchParams) (k : String) : Option PVal :=
  match p.find? (fun e => e.1 == k) with
  | some e => some e.2
  | none => none

/-- `(params.k as number) || d`: the JS `||` falls back on every falsy value,
including the number 0.  A string value would coerce through `NaN` in the
later arithmetic; no claim exercises that case and we return the fallback. -/
def getNumOr (p : GlitchParams) (k : String) (d : ℚ) : ℚ :=
  match lookupP p k with
  | some (PVal.num q) => if q = 0 then d else q
  | some (PVal.bool b) => if b then 1 else d
  | some (PVal.str _) => d
  | none => d

/-- `(params.k as number) ?? d`: only a missing key falls back. -/
def getNumNullish (p : GlitchParams) (k : String) (d : ℚ) : ℚ :=
  match lookupP p k with
  | some (PVal.num q) => q
  | some (PVal.bool b) => if b then 1 else 0
  | some (PVal.str _) => 0
  | none => d

/-- `(params.k as string) || d`.  A truthy non-string value is kept by `||`
and then matches no `case` label of the following `switch`; we model it by a
marker string that no catalog option uses. -/
def getStrOr (p : GlitchParams) (k : String) (d : String) : String :=
  match lookupP p k with
  | some (PVal.str s) => if s = "" then d else s
  | some (PVal.num q) => if q = 0 then d else "[truthy non-string]"
  | some (PVal.bool b) => if b then "[truthy non-string]" else d
  | none => d

/-- `(params.k as boolean) || false`. -/
def getBoolOr (p : GlitchParams) (k : String) : Bool :=
  match lookupP p k with
  | some (PVal.bool b) => b
  | some (PVal.num q) => decide (q ≠ 0)
  | some (PVal.str s) => decide (s ≠ "")
  | none => false

/-- `params.k !== false`: everything except the literal `false` counts as
true (this is how `wrapEdges` and `useFiltering` are read). -/
def getNotFalse (p : GlitchParams) (k : String) : Bool :=
  match lookupP p k with
  | some (PVal.bool false) => false
  | _ => true

/-! ## Buffers, bitmaps and the write state -/

/-- A `Uint8ClampedArray`: a fixed length and a valuation.  Entries of a
well-formed buffer are bytes. -/
structure Buf where
  size : ℕ
  val : ℕ → ℕ

/-- Read `buf[i]`.  A fractional, negative or out-of-range index yields
`undefined` in JS (modelled as 0). -/
def Buf.get (b : Buf) (i : ℚ) : ℚ :=
  if i.den = 1 ∧ 0 ≤ i.num ∧ i.num.toNat < b.size then (b.val i.num.toNat : ℚ) else 0

/-- Write `buf[i] = v`: stores the clamped value; a fractional, negative or
out-of-range index is ignored (typed-array semantics). -/
def Buf.set (b : Buf) (i : ℚ) (v : ℚ) : Buf :=
  if i.den = 1 ∧ 0 ≤ i.num ∧ i.num.toNat < b.size then
    { b with val := Function.update b.val i.num.toNat (u8clamp v) }
  else b

/-- An `ImageData`: dimensions plus the RGBA byte buffer. -/
structure Bitmap where
  width : ℕ
  height : ℕ
  data : Buf

/-- `new ImageData(w, h)`: a zero-initialised buffer of `w*h*4` bytes. -/
def newImageData (w h : ℕ) : Buf := ⟨w * h * 4, fun _ => 0⟩

/-- The mutable state of one `apply` run: the input buffer (never written by
any transform — that is claim C2) and the output buffer. -/
structure St where
  inp : Buf
  out : Buf

/-- `outData[i] = v`. -/
def writeOut (s : St) (i v : ℚ) : St := { s with out := s.out.set i v }

/-- Four consecutive channel stores `buf[base..base+3] = v0..v3` on a bare
buffer (used for the intermediate mip buffers, which are local variables in
the source). -/
def set4 (b : Buf) (base v0 v1 v2 v3 : ℚ) : Buf :=
  (((b.set base v0).set (base + 1) v1).set (base + 2) v2).set (base + 3) v3

/-- The ubiquitous four consecutive channel writes
`outData[base..base+3] = v0..v3`. -/
def write4 (s : St) (base v0 v1 v2 v3 : ℚ) : St :=
  { s with out := set4 s.out base v0 v1 v2 v3 }

/-- `for (i = 0; i < n; i++) body`, iterating in order `0, 1, …, n-1`. -/
def forLoop {α : Type} (n : ℕ) (f : ℕ → α → α) (a : α) : α :=
  (List.range n).foldl (fun a i => f i a) a

/-! ## The catalog record types -/

/-- A schema entry (source `ParamDefinition`; the `type` field is `ptype`
here, `description` omitted). -/
structure ParamDefn where
  pname : String
  ptype : String
  pmin : Option ℚ := none
  pmax : Option ℚ := none
  pstep : Option ℚ := none
  poptions : Option (List String) := none
  pdefault : PVal

/-- The result of one `apply` run: the final buffer state together with the
returned bitmap. -/
structure Applied where
  finalSt : St
  result : Bitmap

/-- A catalog entry (source `GlitchDefinition`; documentation-only string
fields omitted). -/
structure GlitchDefinition where
  id : String
  name : String
  category : String
  params : List ParamDefn
  apply : Bitmap → GlitchParams → Applied

/-! ## Coordinate transforms -/

/-- `offByOne.apply` (coordinates/off-by-one). -/
def offByOne_apply (imageData : Bitmap) (params : GlitchParams) : Applied :=
  let width := imageData.width
  let height := imageData.height
  let data := imageData.data
  let xOffset := getNumOr params "xOffset" 1
  let yOffset := getNumOr params "yOffset" 1
  let wrapEdges := getNotFalse params "wrapEdges"
  let st0 : St := ⟨data, newImageData width height⟩
  let st := forLoop height (fun y st =>
    forLoop width (fun x st =>
      let outIdx : ℚ := ((y : ℚ) * width + x) * 4
      let srcX0 : ℚ := (x : ℚ) + xOffset
      let srcY0 : ℚ := (y : ℚ) + yOffset
      let srcX : ℚ := if wrapEdges then jsMod (jsMod srcX0 width + width) width
        else max 0 (min ((width : ℚ) - 1) srcX0)
      let srcY : ℚ := if wrapEdges then jsMod (jsMod srcY0 height + height) height
        else max 0 (min ((height : ℚ) - 1) srcY0)
      let srcIdx : ℚ := (srcY * width + srcX) * 4
      write4 st outIdx (data.get srcIdx) (data.get (srcIdx + 1))
        (data.get (srcIdx + 2)) (data.get (srcIdx + 3))) st) st0
  ⟨st, ⟨width, height, st.out⟩⟩

/-- The catalog record for `off-by-one`. -/
def offByOne : GlitchDefinition :=
  { id := "off-by-one", name := "Off-by-One", category := "coordinates",
    params := [
      { pname := "xOffset", ptype := "range", pmin := some (-5), pmax := some 5,
        pstep := some 1, pdefault := PVal.num 1 },
      { pname := "yOffset", ptype := "range", pmin := some (-5), pmax := some 5,
        pstep := some 1, pdefault := PVal.num 1 },
      { pname := "wrapEdges", ptype := "boolean", pdefault := PVal.bool true }],
    apply := offByOne_apply }

/-- `flippedAxis.apply` (coordinates/flipped-axis).  The `switch` on
`flipMode` becomes an if-chain; a mode matching no case keeps `srcX = x`,
`srcY = y`. -/
def flippedAxis_apply (imageData : Bitmap) (params : GlitchParams) : Applied :=
  let width := imageData.width
  let height := imageData.height
  let data := imageData.data
  let flipMode := getStrOr params "flipMode" "Flip Vertical"
  let st0 : St := ⟨data, newImageData width height⟩
  let st := forLoop height (fun y st =>
    forLoop width (fun x st =>
      let outIdx : ℚ := ((y : ℚ) * width + x) * 4
      let src : ℚ × ℚ :=
        if flipMode = "Flip Vertical" then ((x : ℚ), (height : ℚ) - 1 - y)
        else if flipMode = "Flip Horizontal" then ((width : ℚ) - 1 - x, (y : ℚ))
        else if flipMode = "Flip Both" then ((width : ℚ) - 1 - x, (height : ℚ) - 1 - y)
        else if flipMode = "Rotate 180" then ((width : ℚ) - 1 - x, (height : ℚ) - 1 - y)
        else ((x : ℚ), (y : ℚ))
      let srcIdx : ℚ := (src.2 * width + src.1) * 4
      write4 st outIdx (data.get srcIdx) (data.get (srcIdx + 1))
        (data.get (srcIdx + 2)) (data.get (srcIdx + 3))) st) st0
  ⟨st, ⟨width, height, st.out⟩⟩

/-- The catalog record for `flipped-axis`. -/
def flippedAxis : GlitchDefinition :=
  { id := "flipped-axis", name := "Flipped Axis", category := "coordinates",
    params := [
      { pname := "flipMode", ptype := "select",
        poptions := some ["Flip Vertical", "Flip Horizontal", "Flip Both", "Rotate 180"],
        pdefault := PVal.str "Flip Vertical" }],
    apply := flippedAxis_apply }

/-- The pixel accumulator of the mipmap box filter
(`let r = 0, g = 0, b = 0, a = 0, count = 0`). -/
structure Acc where
  r : ℚ
  g : ℚ
  b : ℚ
  a : ℚ
  count : ℚ

/-- The 2×2 accumulation of one box-filter downsample step of the mipmap
transform (the body of the `while` loop in `mipmap.apply`).  The source loop
condition `dy < 2 && srcY + dy < mipH` stops the loop at the first failing
index; since `srcY + dy` is increasing in `dy` this equals skipping the
failing indices, which is how it is written here. -/
def boxAcc (prev : Buf) (mipW mipH srcX srcY : ℕ) : Acc :=
  forLoop 2 (fun dy acc =>
    if srcY + dy < mipH then
      forLoop 2 (fun dx acc =>
        if srcX + dx < mipW then
          let idx : ℚ := (((srcY + dy : ℕ) : ℚ) * mipW + ((srcX + dx : ℕ) : ℚ)) * 4
          { r := acc.r + prev.get idx, g := acc.g + prev.get (idx + 1),
            b := acc.b + prev.get (idx + 2), a := acc.a + prev.get (idx + 3),
            count := acc.count + 1 }
        else acc) acc
    else acc) ⟨0, 0, 0, 0, 0⟩

/-- One box-filter downsample step (continued): the per-pixel write of the
rounded averages. -/
def downsampleMip (prev : Buf) (mipW mipH : ℕ) : ℕ × ℕ × Buf :=
  let newW := max 1 (mipW / 2)
  let newH := max 1 (mipH / 2)
  let buf := forLoop newH (fun y bb =>
    forLoop newW (fun x bb =>
      let srcX := x * 2
      let srcY := y * 2
      let acc : Acc := boxAcc prev mipW mipH srcX srcY
      let outIdx : ℚ := ((y : ℚ) * newW + x) * 4
      set4 bb outIdx (jsRound (acc.r / acc.count)) (jsRound (acc.g / acc.count))
        (jsRound (acc.b / acc.count)) (jsRound (acc.a / acc.count))) bb) (newImageData newW newH)
  (newW, newH, buf)

/-- The mip-chain construction (`while (mipW > 1 || mipH > 1)`), carrying
the accumulated `mipLevels` list.  `fuel` bounds the iteration count; the
caller passes `width + height + 1`, which the halving loop never exhausts. -/
def buildMips (fuel : ℕ) (mips : List (ℕ × ℕ × Buf)) (prev : Buf) (mipW mipH : ℕ) :
    List (ℕ × ℕ × Buf) :=
  match fuel with
  | 0 => mips
  | fuel + 1 =>
    if 1 < mipW ∨ 1 < mipH then
      let nm := downsampleMip prev mipW mipH
      buildMips fuel (mips ++ [nm]) nm.2.2 nm.1 nm.2.1
    else mips

/-- Total stand-in for `mipLevels[q]`: a fractional, negative or
past-the-end JS index yields `undefined`, and the source then faults on the
following `mip.width` access (a `TypeError`; reachable with a negative
`lodBias`).  This version returns a zero-sized mip there so that the
fault-insensitive theorems (no-mutation, determinism) can run the loop to
completion; `mipAtE` and `mipmap_applyE` below are the fault-faithful
reading, and the two agree on every non-faulting index (`mipAtE_some`). -/
def mipAt (ls : List (ℕ × ℕ × Buf)) (q : ℚ) : ℕ × ℕ × Buf :=
  if q.den = 1 ∧ 0 ≤ q.num ∧ q.num.toNat < ls.length then
    ls.getD q.num.toNat (0, 0, ⟨0, fun _ => 0⟩)
  else (0, 0, ⟨0, fun _ => 0⟩)

/-- `mipLevels[q]` followed by the property access the source performs on
it: an invalid JS index gives `undefined` and the `mip.width` access throws
a `TypeError`, modelled as `none`. -/
def mipAtE (ls : List (ℕ × ℕ × Buf)) (q : ℚ) : Option (ℕ × ℕ × Buf) :=
  if q.den = 1 ∧ 0 ≤ q.num ∧ q.num.toNat < ls.length then
    some (ls.getD q.num.toNat (0, 0, ⟨0, fun _ => 0⟩))
  else none

/-- `mipColors[q]` with the same JS indexing convention. -/
def colorAt (ls : List (ℚ × ℚ × ℚ)) (q : ℚ) : ℚ × ℚ × ℚ :=
  if q.den = 1 ∧ 0 ≤ q.num ∧ q.num.toNat < ls.length then
    ls.getD q.num.toNat (0, 0, 0)
  else (0, 0, 0)

/-- `mipmap.apply` (coordinates/mipmap).  `pw` is the abstract `Math.pow`. -/
def mipmap_apply (pw : ℚ → ℚ → ℚ) (imageData : Bitmap) (params : GlitchParams) : Applied :=
  let width := imageData.width
  let height := imageData.height
  let data := imageData.data
  let mode := getStrOr params "mode" "Too blurry (high LOD)"
  let lodBias := getNumOr params "lodBias" 2
  let mipLevels := buildMips (width + height + 1) [(width, height, data)] data width height
  let mipColors : List (ℚ × ℚ × ℚ) :=
    [(255, 0, 0), (0, 255, 0), (0, 0, 255), (255, 255, 0),
     (255, 0, 255), (0, 255, 255), (255, 128, 0), (128, 0, 255)]
  let st0 : St := ⟨data, newImageData width height⟩
  let st := forLoop height (fun y st =>
    forLoop width (fun x st =>
      let outIdx : ℚ := ((y : ℚ) * width + x) * 4
      let mipLevel : ℚ :=
        if mode = "Too blurry (high LOD)" then
          min ((mipLevels.length : ℚ) - 1) (jsFloor lodBias)
        else if mode = "Aliased (low LOD)" then 0
        else if mode = "Wrong mip level" then
          jsMod (jsFloor (((x : ℚ) + y) / 32)) (mipLevels.length : ℚ)
        else if mode = "Visualize mip levels" then
          min ((mipLevels.length : ℚ) - 1) (jsFloor lodBias)
        else 0
      let mip := mipAt mipLevels mipLevel
      let scale := pw 2 mipLevel
      let srcX := jsMod (jsFloor ((x : ℚ) / scale)) (mip.1 : ℚ)
      let srcY := jsMod (jsFloor ((y : ℚ) / scale)) (mip.2.1 : ℚ)
      let srcIdx : ℚ := (srcY * (mip.1 : ℚ) + srcX) * 4
      let st :=
        if mode = "Visualize mip levels" then
          let color := colorAt mipColors (jsMod mipLevel (mipColors.length : ℚ))
          writeOut (writeOut (writeOut st outIdx
            (jsRound ((mip.2.2.get srcIdx + color.1) / 2)))
            (outIdx + 1) (jsRound ((mip.2.2.get (srcIdx + 1) + color.2.1) / 2)))
            (outIdx + 2) (jsRound ((mip.2.2.get (srcIdx + 2) + color.2.2) / 2))
        else
          writeOut (writeOut (writeOut st outIdx (mip.2.2.get srcIdx))
            (outIdx + 1) (mip.2.2.get (srcIdx + 1)))
            (outIdx + 2) (mip.2.2.get (srcIdx + 2))
      writeOut st (outIdx + 3) 255) st) st0
  ⟨st, ⟨width, height, st.out⟩⟩

/-- The catalog record for `mipmap`. -/
def mipmap (pw : ℚ → ℚ → ℚ) : GlitchDefinition :=
  { id := "mipmap", name := "Mipmap LOD Errors", category := "coordinates",
    params := [
      { pname := "mode", ptype := "select",
        poptions := some ["Too blurry (high LOD)", "Aliased (low LOD)",
          "Wrong mip level", "Visualize mip levels"],
        pdefault := PVal.str "Too blurry (high LOD)" },
      { pname := "lodBias", ptype := "range", pmin := some 0, pmax := some 4,
        pstep := some (1/2), pdefault := PVal.num 2 }],
    apply := mipmap_apply pw }

/-- Iteration count of a JS loop `for (k = 0; k < q; k++)` with a (possibly
fractional or negative) numeric bound. -/
def natCeil (q : ℚ) : ℕ := (Int.ceil q).toNat

/-- `uvWrapping.apply` (coordinates/uv-wrapping).  The `continue` in the
`None (shows bug)` case writes the magenta sentinel and skips the sampling
writes, which is rendered as the outer conditional. -/
def uvWrapping_apply (imageData : Bitmap) (params : GlitchParams) : Applied :=
  let width := imageData.width
  let height := imageData.height
  let data := imageData.data
  let wrapMode := getStrOr params "wrapMode" "Repeat"
  let uvScale := getNumOr params "uvScale" 2
  let uvOffsetX := getNumOr params "uvOffsetX" 0
  let uvOffsetY := getNumOr params "uvOffsetY" 0
  let st0 : St := ⟨data, newImageData width height⟩
  let st := forLoop height (fun y st =>
    forLoop width (fun x st =>
      let outIdx : ℚ := ((y : ℚ) * width + x) * 4
      let u0 : ℚ := ((x : ℚ) / width) * uvScale + uvOffsetX
      let v0 : ℚ := ((y : ℚ) / height) * uvScale + uvOffsetY
      if wrapMode = "None (shows bug)" ∧ (u0 < 0 ∨ 1 < u0 ∨ v0 < 0 ∨ 1 < v0) then
        write4 st outIdx 255 0 255 255
      else
        let u : ℚ :=
          if wrapMode = "Repeat" then jsMod (jsMod u0 1 + 1) 1
          else if wrapMode = "Mirror" then
            let u1 := jsAbs (jsMod (jsMod u0 2 + 2) 2 - 1)
            let u2 := if jsMod (jsFloor (jsAbs (u1 * uvScale))) 2 = 1 then 1 - u1 else u1
            jsMod (jsMod u2 1 + 1) 1
          else if wrapMode = "Clamp" then max 0 (min 1 u0)
          else u0
        let v : ℚ :=
          if wrapMode = "Repeat" then jsMod (jsMod v0 1 + 1) 1
          else if wrapMode = "Mirror" then
            let v1 := jsAbs (jsMod (jsMod v0 2 + 2) 2 - 1)
            let v2 := if jsMod (jsFloor (jsAbs (v1 * uvScale))) 2 = 1 then 1 - v1 else v1
            jsMod (jsMod v2 1 + 1) 1
          else if wrapMode = "Clamp" then max 0 (min 1 v0)
          else v0
        let srcX := jsFloor (u * ((width : ℚ) - 1))
        let srcY := jsFloor (v * ((height : ℚ) - 1))
        let srcIdx := (srcY * width + srcX) * 4
        write4 st outIdx (data.get srcIdx) (data.get (srcIdx + 1))
          (data.get (srcIdx + 2)) (data.get (srcIdx + 3))) st) st0
  ⟨st, ⟨width, height, st.out⟩⟩

/-- The catalog record for `uv-wrapping`. -/
def uvWrapping : GlitchDefinition :=
  { id := "uv-wrapping", name := "UV Wrapping", category := "coordinates",
    params := [
      { pname := "wrapMode", ptype := "select",
        poptions := some ["Repeat", "Mirror", "Clamp", "None (shows bug)"],
        pdefault := PVal.str "Repeat" },
      { pname := "uvScale", ptype := "range", pmin := some (1/2), pmax := some 4,
        pstep := some (1/4), pdefault := PVal.num 2 },
      { pname := "uvOffsetX", ptype := "range", pmin := some (-1), pmax := some 1,
        pstep := some (1/10), pdefault := PVal.num 0 },
      { pname := "uvOffsetY", ptype := "range", pmin := some (-1), pmax := some 1,
        pstep := some (1/10), pdefault := PVal.num 0 }],
    apply := uvWrapping_apply }

/-- `aspectRatio.apply` (coordinates/aspect-ratio). -/
def aspectRatio_apply (imageData : Bitmap) (params : GlitchParams) : Applied :=
  let width := imageData.width
  let height := imageData.height
  let data := imageData.data
  let mode := getStrOr params "mode" "Swap Width/Height"
  let scaleX := getNumOr params "scaleX" 1
  let scaleY := getNumOr params "scaleY" 1
  let st0 : St := ⟨data, newImageData width height⟩
  let st := forLoop height (fun y st =>
    forLoop width (fun x st =>
      let outIdx : ℚ := ((y : ℚ) * width + x) * 4
      let src : ℚ × ℚ :=
        if mode = "Swap Width/Height" then
          let normalizedX := (x : ℚ) / width
          let normalizedY := (y : ℚ) / height
          (jsFloor (normalizedY * ((width : ℚ) - 1)), jsFloor (normalizedX * ((height : ℚ) - 1)))
        else if mode = "Force Square" then
          let maxDim : ℚ := max (width : ℚ) (height : ℚ)
          (jsMod (jsFloor (((x : ℚ) / width) * maxDim)) (width : ℚ),
           jsMod (jsFloor (((y : ℚ) / height) * maxDim)) (height : ℚ))
        else if mode = "Wrong Aspect Scale" then
          let centerX := (width : ℚ) / 2
          let centerY := (height : ℚ) / 2
          (max 0 (min ((width : ℚ) - 1) (jsFloor (centerX + ((x : ℚ) - centerX) / scaleX))),
           max 0 (min ((height : ℚ) - 1) (jsFloor (centerY + ((y : ℚ) - centerY) / scaleY))))
        else ((x : ℚ), (y : ℚ))
      let srcX := max 0 (min ((width : ℚ) - 1) src.1)
      let srcY := max 0 (min ((height : ℚ) - 1) src.2)
      let srcIdx := (srcY * width + srcX) * 4
      write4 st outIdx (data.get srcIdx) (data.get (srcIdx + 1))
        (data.get (srcIdx + 2)) (data.get (srcIdx + 3))) st) st0
  ⟨st, ⟨width, height, st.out⟩⟩

/-- The catalog record for `aspect-ratio`. -/
def aspectRatio : GlitchDefinition :=
  { id := "aspect-ratio", name := "Aspect Ratio", category := "coordinates",
    params := [
      { pname := "mode", ptype := "select",
        poptions := some ["Swap Width/Height", "Force Square", "Wrong Aspect Scale"],
        pdefault := PVal.str "Swap Width/Height" },
      { pname := "scaleX", ptype := "range", pmin := some (1/4), pmax := some 2,
        pstep := some (1/10), pdefault := PVal.num 1 },
      { pname := "scaleY", ptype := "range", pmin := some (1/4), pmax := some 2,
        pstep := some (1/10), pdefault := PVal.num 1 }],
    apply := aspectRatio_apply }

/-- The shared `getPixel` closure of `sampling.apply` and
`halfPixel.apply`: nearest sample with floor and edge clamp. -/
def getPixelAt (data : Buf) (width height : ℕ) (x y : ℚ) : ℚ × ℚ × ℚ × ℚ :=
  let x := max 0 (min ((width : ℚ) - 1) (jsFloor x))
  let y := max 0 (min ((height : ℚ) - 1) (jsFloor y))
  let idx := (y * width + x) * 4
  (data.get idx, data.get (idx + 1), data.get (idx + 2), data.get (idx + 3))

/-- The shared `bilinear` closure of `sampling.apply` and `halfPixel.apply`
(the per-channel loop of the source is unrolled into the four components). -/
def bilinearAt (data : Buf) (width height : ℕ) (x y : ℚ) : ℚ × ℚ × ℚ × ℚ :=
  let x0 := jsFloor x
  let y0 := jsFloor y
  let x1 := min (x0 + 1) ((width : ℚ) - 1)
  let y1 := min (y0 + 1) ((height : ℚ) - 1)
  let fx := x - x0
  let fy := y - y0
  let p00 := getPixelAt data width height x0 y0
  let p10 := getPixelAt data width height x1 y0
  let p01 := getPixelAt data width height x0 y1
  let p11 := getPixelAt data width height x1 y1
  let blend : ℚ → ℚ → ℚ → ℚ → ℚ := fun a b c d =>
    jsRound ((a * (1 - fx) + b * fx) * (1 - fy) + (c * (1 - fx) + d * fx) * fy)
  (blend p00.1 p10.1 p01.1 p11.1,
   blend p00.2.1 p10.2.1 p01.2.1 p11.2.1,
   blend p00.2.2.1 p10.2.2.1 p01.2.2.1 p11.2.2.1,
   blend p00.2.2.2 p10.2.2.2 p01.2.2.2 p11.2.2.2)

/-- `sampling.apply` (coordinates/sampling). -/
def sampling_apply (imageData : Bitmap) (params : GlitchParams) : Applied :=
  let width := imageData.width
  let height := imageData.height
  let data := imageData.data
  let mode := getStrOr params "mode" "Nearest (blocky)"
  let scale := getNumOr params "scale" 4
  let st0 : St := ⟨data, newImageData width height⟩
  let st := forLoop height (fun y st =>
    forLoop width (fun x st =>
      let outIdx : ℚ := ((y : ℚ) * width + x) * 4
      let pixel : ℚ × ℚ × ℚ × ℚ :=
        if mode = "Nearest (blocky)" then
          let nx := jsFloor ((x : ℚ) / scale) * scale + scale / 2
          let ny := jsFloor ((y : ℚ) / scale) * scale + scale / 2
          getPixelAt data width height nx ny
        else if mode = "Exaggerated nearest (pixelate)" then
          let px := jsFloor ((x : ℚ) / scale) * scale
          let py := jsFloor ((y : ℚ) / scale) * scale
          getPixelAt data width height px py
        else if mode = "Bad bilinear (blurry)" then
          let samples := scale
          let acc := forLoop (natCeil samples) (fun sy acc =>
            forLoop (natCeil samples) (fun sx acc =>
              let sampleX := (x : ℚ) + ((sx : ℚ) - samples / 2) * (1/2)
              let sampleY := (y : ℚ) + ((sy : ℚ) - samples / 2) * (1/2)
              let p := bilinearAt data width height sampleX sampleY
              (acc.1 + p.1, acc.2.1 + p.2.1, acc.2.2.1 + p.2.2.1, acc.2.2.2 + p.2.2.2)) acc)
            ((0 : ℚ), (0 : ℚ), (0 : ℚ), (0 : ℚ))
          let count := samples * samples
          (jsRound (acc.1 / count), jsRound (acc.2.1 / count),
           jsRound (acc.2.2.1 / count), jsRound (acc.2.2.2 / count))
        else getPixelAt data width height (x : ℚ) (y : ℚ)
      write4 st outIdx pixel.1 pixel.2.1 pixel.2.2.1 pixel.2.2.2) st) st0
  ⟨st, ⟨width, height, st.out⟩⟩

/-- The catalog record for `sampling`. -/
def sampling : GlitchDefinition :=
  { id := "sampling", name := "Wrong Texture Sampling", category := "coordinates",
    params := [
      { pname := "mode", ptype := "select",
        poptions := some ["Nearest (blocky)", "Exaggerated nearest (pixelate)",
          "Bad bilinear (blurry)"],
        pdefault := PVal.str "Nearest (blocky)" },
      { pname := "scale", ptype := "range", pmin := some 2, pmax := some 16,
        pstep := some 1, pdefault := PVal.num 4 }],
    apply := sampling_apply }

/-- `halfPixel.apply` (coordinates/half-pixel); this transform reads its two
offsets with `??`, not `||`. -/
def halfPixel_apply (imageData : Bitmap) (params : GlitchParams) : Applied :=
  let width := imageData.width
  let height := imageData.height
  let data := imageData.data
  let offsetX := getNumNullish params "offsetX" (1/2)
  let offsetY := getNumNullish params "offsetY" (1/2)
  let useFiltering := getNotFalse params "useFiltering"
  let st0 : St := ⟨data, newImageData width height⟩
  let st := forLoop height (fun y st =>
    forLoop width (fun x st =>
      let outIdx : ℚ := ((y : ℚ) * width + x) * 4
      let sampleX := (x : ℚ) + offsetX
      let sampleY := (y : ℚ) + offsetY
      let pixel : ℚ × ℚ × ℚ × ℚ :=
        if useFiltering then bilinearAt data width height sampleX sampleY
        else getPixelAt data width height (jsFloor sampleX) (jsFloor sampleY)
      write4 st outIdx pixel.1 pixel.2.1 pixel.2.2.1 pixel.2.2.2) st) st0
  ⟨st, ⟨width, height, st.out⟩⟩

/-- The catalog record for `half-pixel`. -/
def halfPixel : GlitchDefinition :=
  { id := "half-pixel", name := "Half-Pixel Offset", category := "coordinates",
    params := [
      { pname := "offsetX", ptype := "range", pmin := some (-1), pmax := some 1,
        pstep := some (1/10), pdefault := PVal.num (1/2) },
      { pname := "offsetY", ptype := "range", pmin := some (-1), pmax := some 1,
        pstep := some (1/10), pdefault := PVal.num (1/2) },
      { pname := "useFiltering", ptype := "boolean", pdefault := PVal.bool true }],
    apply := halfPixel_apply }

/-! ## Pixel-format transforms -/

/-- `rgbaAsRgb.apply` (pixel-format/rgba-as-rgb). -/
def rgbaAsRgb_apply (imageData : Bitmap) (params : GlitchParams) : Applied :=
  let width := imageData.width
  let height := imageData.height
  let data := imageData.data
  let intensity := getNumOr params "intensity" 1
  let st0 : St := ⟨data, newImageData width height⟩
  let st := forLoop height (fun y st =>
    forLoop width (fun x st =>
      let correctIdx : ℚ := ((y : ℚ) * width + x) * 4
      let wrongPixelIndex : ℚ := (y : ℚ) * width + x
      let wrongByteOffset := wrongPixelIndex * 3
      let wrongIdx := jsMod wrongByteOffset ((width : ℚ) * height * 4)
      if wrongIdx + 2 < (data.size : ℚ) then
        write4 st correctIdx
          (jsRound (data.get correctIdx * (1 - intensity) + data.get wrongIdx * intensity))
          (jsRound (data.get (correctIdx + 1) * (1 - intensity) + data.get (wrongIdx + 1) * intensity))
          (jsRound (data.get (correctIdx + 2) * (1 - intensity) + data.get (wrongIdx + 2) * intensity))
          255
      else
        write4 st correctIdx (data.get correctIdx) (data.get (correctIdx + 1))
          (data.get (correctIdx + 2)) 255) st) st0
  ⟨st, ⟨width, height, st.out⟩⟩

/-- The catalog record for `rgba-as-rgb`. -/
def rgbaAsRgb : GlitchDefinition :=
  { id := "rgba-as-rgb", name := "RGBA as RGB", category := "pixel-format",
    params := [
      { pname := "intensity", ptype := "range", pmin := some (1/10), pmax := some 1,
        pstep := some (1/10), pdefault := PVal.num 1 }],
    apply := rgbaAsRgb_apply }

/-- `rgbAsRgba.apply` (pixel-format/rgb-as-rgba). -/
def rgbAsRgba_apply (imageData : Bitmap) (params : GlitchParams) : Applied :=
  let width := imageData.width
  let height := imageData.height
  let data := imageData.data
  let intensity := getNumOr params "intensity" 1
  let st0 : St := ⟨data, newImageData width height⟩
  let st := forLoop height (fun y st =>
    forLoop width (fun x st =>
      let outIdx : ℚ := ((y : ℚ) * width + x) * 4
      let wrongPixelIndex : ℚ := (y : ℚ) * width + x
      let wrongByteOffset := wrongPixelIndex * 4
      let actualPixelIndex := jsFloor (wrongByteOffset / 3)
      let srcIdx := jsMod actualPixelIndex ((width : ℚ) * height) * 4
      if srcIdx + 3 < (data.size : ℚ) then
        write4 st outIdx
          (jsRound (data.get outIdx * (1 - intensity) + data.get srcIdx * intensity))
          (jsRound (data.get (outIdx + 1) * (1 - intensity) + data.get (srcIdx + 1) * intensity))
          (jsRound (data.get (outIdx + 2) * (1 - intensity) + data.get (srcIdx + 2) * intensity))
          255
      else
        write4 st outIdx (data.get outIdx) (data.get (outIdx + 1))
          (data.get (outIdx + 2)) 255) st) st0
  ⟨st, ⟨width, height, st.out⟩⟩

/-- The catalog record for `rgb-as-rgba`. -/
def rgbAsRgba : GlitchDefinition :=
  { id := "rgb-as-rgba", name := "RGB as RGBA", category := "pixel-format",
    params := [
      { pname := "intensity", ptype := "range", pmin := some (1/10), pmax := some 1,
        pstep := some (1/10), pdefault := PVal.num 1 }],
    apply := rgbAsRgba_apply }

/-- `bgrSwap.apply` (pixel-format/bgr-swap): a linear loop
`for (i = 0; i < data.length; i += 4)`, so `i = 4k` for
`k < ⌈data.length / 4⌉`. -/
def bgrSwap_apply (imageData : Bitmap) (params : GlitchParams) : Applied :=
  let width := imageData.width
  let height := imageData.height
  let data := imageData.data
  let swapMode := getStrOr params "swapMode" "RGB to BGR"
  let st0 : St := ⟨data, newImageData width height⟩
  let st := forLoop ((data.size + 3) / 4) (fun k st =>
    let i : ℚ := ((4 * k : ℕ) : ℚ)
    let r := data.get i
    let g := data.get (i + 1)
    let b := data.get (i + 2)
    let a := data.get (i + 3)
    if swapMode = "RGB to BGR" then write4 st i b g r a
    else if swapMode = "Swap R and G" then write4 st i g r b a
    else if swapMode = "Swap G and B" then write4 st i r b g a
    else write4 st i b g r a) st0
  ⟨st, ⟨width, height, st.out⟩⟩

/-- The catalog record for `bgr-swap`. -/
def bgrSwap : GlitchDefinition :=
  { id := "bgr-swap", name := "BGR Swap", category := "pixel-format",
    params := [
      { pname := "swapMode", ptype := "select",
        poptions := some ["RGB to BGR", "Swap R and G", "Swap G and B"],
        pdefault := PVal.str "RGB to BGR" }],
    apply := bgrSwap_apply }

/-- `argbOrder.apply` (pixel-format/argb-order). -/
def argbOrder_apply (imageData : Bitmap) (params : GlitchParams) : Applied :=
  let width := imageData.width
  let height := imageData.height
  let data := imageData.data
  let format := getStrOr params "format" "RGBA as ARGB"
  let st0 : St := ⟨data, newImageData width height⟩
  let st := forLoop ((data.size + 3) / 4) (fun k st =>
    let i : ℚ := ((4 * k : ℕ) : ℚ)
    let r := data.get i
    let g := data.get (i + 1)
    let b := data.get (i + 2)
    let a := data.get (i + 3)
    if format = "RGBA as ARGB" then write4 st i a r g b
    else if format = "RGBA as ABGR" then write4 st i a b g r
    else if format = "RGBA as BGRA" then write4 st i b g r a
    else if format = "Rotate channels left" then write4 st i g b a r
    else if format = "Rotate channels right" then write4 st i a r g b
    else write4 st i r g b a) st0
  ⟨st, ⟨width, height, st.out⟩⟩

/-- The catalog record for `argb-order`. -/
def argbOrder : GlitchDefinition :=
  { id := "argb-order", name := "ARGB/ABGR Order", category := "pixel-format",
    params := [
      { pname := "format", ptype := "select",
        poptions := some ["RGBA as ARGB", "RGBA as ABGR", "RGBA as BGRA",
          "Rotate channels left", "Rotate channels right"],
        pdefault := PVal.str "RGBA as ARGB" }],
    apply := argbOrder_apply }

/-- `endianness.apply` (pixel-format/endianness). -/
def endianness_apply (imageData : Bitmap) (params : GlitchParams) : Applied :=
  let width := imageData.width
  let height := imageData.height
  let data := imageData.data
  let swapMode := getStrOr params "swapMode" "Swap 32-bit (full reverse)"
  let st0 : St := ⟨data, newImageData width height⟩
  let st := forLoop ((data.size + 3) / 4) (fun k st =>
    let i : ℚ := ((4 * k : ℕ) : ℚ)
    let r := data.get i
    let g := data.get (i + 1)
    let b := data.get (i + 2)
    let a := data.get (i + 3)
    if swapMode = "Swap 32-bit (full reverse)" then write4 st i a b g r
    else if swapMode = "Swap 16-bit pairs" then write4 st i g r a b
    else if swapMode = "Swap within 16-bit" then write4 st i g r b a
    else write4 st i r g b a) st0
  ⟨st, ⟨width, height, st.out⟩⟩

/-- The catalog record for `endianness`. -/
def endianness : GlitchDefinition :=
  { id := "endianness", name := "Endianness Swap", category := "pixel-format",
    params := [
      { pname := "swapMode", ptype := "select",
        poptions := some ["Swap 32-bit (full reverse)", "Swap 16-bit pairs",
          "Swap within 16-bit"],
        pdefault := PVal.str "Swap 32-bit (full reverse)" }],
    apply := endianness_apply }

/-- `channelShift.apply` (pixel-format/channel-shift).  Note the `|| 0`
fallbacks: the schema defaults are 5, 0 and -5, but a missing (or zero)
shift parameter resolves to 0 here — this is what claim C4 is about. -/
def channelShift_apply (imageData : Bitmap) (params : GlitchParams) : Applied :=
  let width := imageData.width
  let height := imageData.height
  let data := imageData.data
  let redShift := getNumOr params "redShift" 0
  let greenShift := getNumOr params "greenShift" 0
  let blueShift := getNumOr params "blueShift" 0
  let st0 : St := ⟨data, newImageData width height⟩
  let st := forLoop height (fun y st =>
    forLoop width (fun x st =>
      let idx : ℚ := ((y : ℚ) * width + x) * 4
      let redX := max 0 (min ((width : ℚ) - 1) ((x : ℚ) + redShift))
      let greenX := max 0 (min ((width : ℚ) - 1) ((x : ℚ) + greenShift))
      let blueX := max 0 (min ((width : ℚ) - 1) ((x : ℚ) + blueShift))
      let redIdx := ((y : ℚ) * width + redX) * 4
      let greenIdx := ((y : ℚ) * width + greenX) * 4
      let blueIdx := ((y : ℚ) * width + blueX) * 4
      write4 st idx (data.get redIdx) (data.get (greenIdx + 1))
        (data.get (blueIdx + 2)) (data.get (idx + 3))) st) st0
  ⟨st, ⟨width, height, st.out⟩⟩

/-- The catalog record for `channel-shift`. -/
def channelShift : GlitchDefinition :=
  { id := "channel-shift", name := "Channel Shift", category := "pixel-format",
    params := [
      { pname := "redShift", ptype := "range", pmin := some (-20), pmax := some 20,
        pstep := some 1, pdefault := PVal.num 5 },
      { pname := "greenShift", ptype := "range", pmin := some (-20), pmax := some 20,
        pstep := some 1, pdefault := PVal.num 0 },
      { pname := "blueShift", ptype := "range", pmin := some (-20), pmax := some 20,
        pstep := some 1, pdefault := PVal.num (-5) }],
    apply := channelShift_apply }

/-- `bitDepth.apply` (pixel-format/bit-depth). -/
def bitDepth_apply (pw : ℚ → ℚ → ℚ) (imageData : Bitmap) (params : GlitchParams) : Applied :=
  let width := imageData.width
  let height := imageData.height
  let data := imageData.data
  let mode := getStrOr params "mode" "Posterize (reduce bits)"
  let bits := getNumOr params "bits" 3
  let levels := pw 2 bits
  let factor := 255 / (levels - 1)
  let st0 : St := ⟨data, newImageData width height⟩
  let st := forLoop ((data.size + 3) / 4) (fun k st =>
    let i : ℚ := ((4 * k : ℕ) : ℚ)
    let r := data.get i
    let g := data.get (i + 1)
    let b := data.get (i + 2)
    let rgb : ℚ × ℚ × ℚ :=
      if mode = "Posterize (reduce bits)" then
        (jsRound (jsRound (r / factor) * factor),
         jsRound (jsRound (g / factor) * factor),
         jsRound (jsRound (b / factor) * factor))
      else if mode = "Simulate 16-bit as 8-bit" then
        (jsMod (r * 256) 256, jsMod (g * 256) 256, jsMod (b * 256) 256)
      else if mode = "Bit truncation" then
        let mask := jsAnd (jsShl 255 (8 - bits)) 255
        (jsAnd r mask, jsAnd g mask, jsAnd b mask)
      else (r, g, b)
    write4 st i rgb.1 rgb.2.1 rgb.2.2 (data.get (i + 3))) st0
  ⟨st, ⟨width, height, st.out⟩⟩

/-- The catalog record for `bit-depth`. -/
def bitDepth (pw : ℚ → ℚ → ℚ) : GlitchDefinition :=
  { id := "bit-depth", name := "Bit Depth Mismatch", category := "pixel-format",
    params := [
      { pname := "mode", ptype := "select",
        poptions := some ["Posterize (reduce bits)", "Simulate 16-bit as 8-bit",
          "Bit truncation"],
        pdefault := PVal.str "Posterize (reduce bits)" },
      { pname := "bits", ptype := "range", pmin := some 1, pmax := some 7,
        pstep := some 1, pdefault := PVal.num 3 }],
    apply := bitDepth_apply pw }

/-- `gamma.apply` (pixel-format/gamma). -/
def gamma_apply (pw : ℚ → ℚ → ℚ) (imageData : Bitmap) (params : GlitchParams) : Applied :=
  let width := imageData.width
  let height := imageData.height
  let data := imageData.data
  let mode := getStrOr params "mode" "sRGB treated as Linear (washed out)"
  let gammaV := getNumOr params "gamma" (11/5)
  let st0 : St := ⟨data, newImageData width height⟩
  let st := forLoop ((data.size + 3) / 4) (fun k st =>
    let i : ℚ := ((4 * k : ℕ) : ℚ)
    let r := data.get i / 255
    let g := data.get (i + 1) / 255
    let b := data.get (i + 2) / 255
    let rgb : ℚ × ℚ × ℚ :=
      if mode = "sRGB treated as Linear (washed out)" then
        (pw r (1 / gammaV), pw g (1 / gammaV), pw b (1 / gammaV))
      else if mode = "Linear treated as sRGB (too dark)" then
        (pw r gammaV, pw g gammaV, pw b gammaV)
      else if mode = "Double gamma" then
        (pw r (gammaV / (11/5) * 2), pw g (gammaV / (11/5) * 2), pw b (gammaV / (11/5) * 2))
      else if mode = "Inverse gamma" then
        (pw r (1 / (gammaV * gammaV / (11/5))), pw g (1 / (gammaV * gammaV / (11/5))),
         pw b (1 / (gammaV * gammaV / (11/5))))
      else (r, g, b)
    write4 st i (jsRound (max 0 (min 1 rgb.1) * 255)) (jsRound (max 0 (min 1 rgb.2.1) * 255))
      (jsRound (max 0 (min 1 rgb.2.2) * 255)) (data.get (i + 3))) st0
  ⟨st, ⟨width, height, st.out⟩⟩

/-- The catalog record for `gamma` (the schema default 2.2 is the rational
11/5; every decimal literal in the source is written as the equal rational). -/
def gamma (pw : ℚ → ℚ → ℚ) : GlitchDefinition :=
  { id := "gamma", name := "Gamma / sRGB Mismatch", category := "pixel-format",
    params := [
      { pname := "mode", ptype := "select",
        poptions := some ["sRGB treated as Linear (washed out)",
          "Linear treated as sRGB (too dark)", "Double gamma", "Inverse gamma"],
        pdefault := PVal.str "sRGB treated as Linear (washed out)" },
      { pname := "gamma", ptype := "range", pmin := some 1, pmax := some 3,
        pstep := some (1/10), pdefault := PVal.num (11/5) }],
    apply := gamma_apply pw }

/-- `signedUnsigned.apply` (pixel-format/signed-unsigned, in bit-depth.ts). -/
def signedUnsigned_apply (imageData : Bitmap) (params : GlitchParams) : Applied :=
  let width := imageData.width
  let height := imageData.height
  let data := imageData.data
  let mode := getStrOr params "mode" "Unsigned as Signed (bright becomes dark)"
  let st0 : St := ⟨data, newImageData width height⟩
  let st := forLoop ((data.size + 3) / 4) (fun k st =>
    let i : ℚ := ((4 * k : ℕ) : ℚ)
    let r := data.get i
    let g := data.get (i + 1)
    let b := data.get (i + 2)
    let step1 : ℚ → ℚ := fun c =>
      let c := if 127 < c then c - 256 else c
      let c := if c < 0 then 256 + c else c
      jsMod (c + 128) 256
    let rgb : ℚ × ℚ × ℚ :=
      if mode = "Unsigned as Signed (bright becomes dark)" then
        (step1 r, step1 g, step1 b)
      else if mode = "Signed range visualization" then
        if 127 < r ∨ 127 < g ∨ 127 < b then
          (if 127 < r then 255 - r else r, if 127 < g then 255 - g else g,
           if 127 < b then 255 - b else b)
        else (r, g, b)
      else if mode = "Normalize to signed (-1 to 1)" then
        (jsRound ((r / 255 * 2 - 1) * 127 + 128), jsRound ((g / 255 * 2 - 1) * 127 + 128),
         jsRound ((b / 255 * 2 - 1) * 127 + 128))
      else if mode = "Absolute value (fold negatives)" then
        (min 255 ((if 127 < r then 255 - r else r) * 2),
         min 255 ((if 127 < g then 255 - g else g) * 2),
         min 255 ((if 127 < b then 255 - b else b) * 2))
      else (r, g, b)
    write4 st i (max 0 (min 255 rgb.1)) (max 0 (min 255 rgb.2.1))
      (max 0 (min 255 rgb.2.2)) (data.get (i + 3))) st0
  ⟨st, ⟨width, height, st.out⟩⟩

/-- The catalog record for `signed-unsigned`. -/
def signedUnsigned : GlitchDefinition :=
  { id := "signed-unsigned", name := "Signed/Unsigned Mismatch", category := "pixel-format",
    params := [
      { pname := "mode", ptype := "select",
        poptions := some ["Unsigned as Signed (bright becomes dark)",
          "Signed range visualization", "Normalize to signed (-1 to 1)",
          "Absolute value (fold negatives)"],
        pdefault := PVal.str "Unsigned as Signed (bright becomes dark)" }],
    apply := signedUnsigned_apply }

/-- `premultipliedAlpha.apply` (pixel-format/premultiplied-alpha). -/
def premultipliedAlpha_apply (imageData : Bitmap) (params : GlitchParams) : Applied :=
  let width := imageData.width
  let height := imageData.height
  let data := imageData.data
  let mode := getStrOr params "mode" "Straight as Premultiplied (dark fringes)"
  let bgR := getNumOr params "backgroundR" 128 / 255
  let bgG := getNumOr params "backgroundG" 128 / 255
  let bgB := getNumOr params "backgroundB" 128 / 255
  let st0 : St := ⟨data, newImageData width height⟩
  let st := forLoop ((data.size + 3) / 4) (fun k st =>
    let i : ℚ := ((4 * k : ℕ) : ℚ)
    let r := data.get i / 255
    let g := data.get (i + 1) / 255
    let b := data.get (i + 2) / 255
    let a := data.get (i + 3) / 255
    let rgb : ℚ × ℚ × ℚ :=
      if mode = "Straight as Premultiplied (dark fringes)" then
        (r + bgR * (1 - a), g + bgG * (1 - a), b + bgB * (1 - a))
      else if mode = "Premultiplied as Straight (too bright)" then
        (r * a * a + bgR * (1 - a), g * a * a + bgG * (1 - a), b * a * a + bgB * (1 - a))
      else if mode = "Double premultiply" then
        (r * (a * a) + bgR * (1 - a), g * (a * a) + bgG * (1 - a), b * (a * a) + bgB * (1 - a))
      else if mode = "Show alpha errors" then
        if a < 1 ∧ a + 1/100 < max r (max g b) then (1, 0, 1)
        else (r * a + bgR * (1 - a), g * a + bgG * (1 - a), b * a + bgB * (1 - a))
      else (r * a + bgR * (1 - a), g * a + bgG * (1 - a), b * a + bgB * (1 - a))
    write4 st i (jsRound (max 0 (min 1 rgb.1) * 255)) (jsRound (max 0 (min 1 rgb.2.1) * 255))
      (jsRound (max 0 (min 1 rgb.2.2) * 255)) 255) st0
  ⟨st, ⟨width, height, st.out⟩⟩

/-- The catalog record for `premultiplied-alpha`. -/
def premultipliedAlpha : GlitchDefinition :=
  { id := "premultiplied-alpha", name := "Premultiplied Alpha", category := "pixel-format",
    params := [
      { pname := "mode", ptype := "select",
        poptions := some ["Straight as Premultiplied (dark fringes)",
          "Premultiplied as Straight (too bright)", "Double premultiply",
          "Show alpha errors"],
        pdefault := PVal.str "Straight as Premultiplied (dark fringes)" },
      { pname := "backgroundR", ptype := "range", pmin := some 0, pmax := some 255,
        pstep := some 1, pdefault := PVal.num 128 },
      { pname := "backgroundG", ptype := "range", pmin := some 0, pmax := some 255,
        pstep := some 1, pdefault := PVal.num 128 },
      { pname := "backgroundB", ptype := "range", pmin := some 0, pmax := some 255,
        pstep := some 1, pdefault := PVal.num 128 }],
    apply := premultipliedAlpha_apply }

/-- `compression.apply` (pixel-format/compression, in bit-depth.ts).  The
stepped block loops `for (by = 0; by < height; by += blockSize)` run
`⌈height / blockSize⌉` times with `by = bi * blockSize`.  The source calls
`blockSizeStr.startsWith` on the `||`-resolved value, which throws a
`TypeError` when a truthy non-string was kept; this total version lets the
`"[truthy non-string]"` marker fall through to block size 16, and
`compression_applyE` below is the fault-faithful reading. -/
def compression_apply (imageData : Bitmap) (params : GlitchParams) : Applied :=
  let width := imageData.width
  let height := imageData.height
  let data := imageData.data
  let blockSizeStr := getStrOr params "blockSize" "8x8 (JPEG)"
  let quality := getNumOr params "quality" 3
  let blockSize : ℕ :=
    if blockSizeStr.startsWith "4" then 4 else if blockSizeStr.startsWith "8" then 8 else 16
  let quantFactor := jsFloor (32 / quality)
  let st0 : St := ⟨data, newImageData width height⟩
  let st := forLoop ((height + (blockSize - 1)) / blockSize) (fun bi st =>
    forLoop ((width + (blockSize - 1)) / blockSize) (fun bj st =>
      let by' := bi * blockSize
      let bx := bj * blockSize
      let acc : Acc := forLoop (min (by' + blockSize) height - by') (fun dy acc =>
        forLoop (min (bx + blockSize) width - bx) (fun dx acc =>
          let idx : ℚ := (((by' + dy : ℕ) : ℚ) * width + ((bx + dx : ℕ) : ℚ)) * 4
          { r := acc.r + data.get idx, g := acc.g + data.get (idx + 1),
            b := acc.b + data.get (idx + 2), a := acc.a, count := acc.count + 1 }) acc)
        ⟨0, 0, 0, 0, 0⟩
      let avgR := acc.r / acc.count
      let avgG := acc.g / acc.count
      let avgB := acc.b / acc.count
      forLoop (min (by' + blockSize) height - by') (fun dy st =>
        forLoop (min (bx + blockSize) width - bx) (fun dx st =>
          let idx : ℚ := (((by' + dy : ℕ) : ℚ) * width + ((bx + dx : ℕ) : ℚ)) * 4
          let r := jsRound (data.get idx / quantFactor) * quantFactor
          let g := jsRound (data.get (idx + 1) / quantFactor) * quantFactor
          let b := jsRound (data.get (idx + 2) / quantFactor) * quantFactor
          let blendFactor := (11 - quality) / 20
          let r := jsRound (r * (1 - blendFactor) + avgR * blendFactor)
          let g := jsRound (g * (1 - blendFactor) + avgG * blendFactor)
          let b := jsRound (b * (1 - blendFactor) + avgB * blendFactor)
          write4 st idx (max 0 (min 255 r)) (max 0 (min 255 g)) (max 0 (min 255 b))
            (data.get (idx + 3))) st) st) st) st0
  ⟨st, ⟨width, height, st.out⟩⟩

/-- The catalog record for `compression`. -/
def compression : GlitchDefinition :=
  { id := "compression", name := "Compression Artifacts", category := "pixel-format",
    params := [
      { pname := "blockSize", ptype := "select",
        poptions := some ["4x4 (DXT/BCn)", "8x8 (JPEG)", "16x16 (heavy)"],
        pdefault := PVal.str "8x8 (JPEG)" },
      { pname := "quality", ptype := "range", pmin := some 1, pmax := some 10,
        pstep := some 1, pdefault := PVal.num 3 }],
    apply := compression_apply }

/-- The `rgbToYuv` closure of `yuv.apply` (BT.709 forward matrix). -/
def rgbToYuv (r g b : ℚ) : ℚ × ℚ × ℚ :=
  ((2126/10000) * r + (7152/10000) * g + (722/10000) * b,
   -(1146/10000) * r - (3854/10000) * g + (1/2) * b + 128,
   (1/2) * r - (4542/10000) * g - (458/10000) * b + 128)

/-- The `yuvToRgb` closure of `yuv.apply` (BT.709 inverse matrix). -/
def yuvToRgb (y u v : ℚ) : ℚ × ℚ × ℚ :=
  (y + (15748/10000) * (v - 128),
   y - (1873/10000) * (u - 128) - (4681/10000) * (v - 128),
   y + (18556/10000) * (u - 128))

/-- The `yuvToRgbWrong` closure of `yuv.apply` (BT.601 coefficients). -/
def yuvToRgbWrong (y u v : ℚ) : ℚ × ℚ × ℚ :=
  (y + (1402/1000) * (v - 128),
   y - (344/1000) * (u - 128) - (714/1000) * (v - 128),
   y + (1772/1000) * (u - 128))

/-- `yuv.apply` (pixel-format/yuv).  The three `data[cornerIdx] ?? r` reads
distinguish an out-of-range read from a stored value, hence `Buf.getOr`. -/
def Buf.getOr (b : Buf) (i d : ℚ) : ℚ :=
  if i.den = 1 ∧ 0 ≤ i.num ∧ i.num.toNat < b.size then (b.val i.num.toNat : ℚ) else d

/-- `yuv.apply` itself. -/
def yuv_apply (imageData : Bitmap) (params : GlitchParams) : Applied :=
  let width := imageData.width
  let height := imageData.height
  let data := imageData.data
  let mode := getStrOr params "mode" "YUV interpreted as RGB"
  let st0 : St := ⟨data, newImageData width height⟩
  let st := forLoop ((data.size + 3) / 4) (fun k st =>
    let i : ℚ := ((4 * k : ℕ) : ℚ)
    let r := data.get i
    let g := data.get (i + 1)
    let b := data.get (i + 2)
    let yuvV := rgbToYuv r g b
    let y := yuvV.1
    let u := yuvV.2.1
    let v := yuvV.2.2
    let rgb : ℚ × ℚ × ℚ :=
      if mode = "YUV interpreted as RGB" then (y, u, v)
      else if mode = "Swapped U/V (green/purple)" then yuvToRgb y v u
      else if mode = "Wrong range (washed out)" then
        yuvToRgb ((y - 16) * 255 / 219) ((u - 16) * 255 / 224) ((v - 16) * 255 / 224)
      else if mode = "Wrong matrix (color shift)" then yuvToRgbWrong y u v
      else if mode = "Missing chroma (grayscale bleed)" then
        let blockX := jsFloor (jsMod (i / 4) (width : ℚ) / 4)
        let blockY := jsFloor (jsFloor (i / 4 / width) / 4)
        let cornerIdx := (blockY * 4 * width + blockX * 4) * 4
        let cornerR := data.getOr cornerIdx r
        let cornerG := data.getOr (cornerIdx + 1) g
        let cornerB := data.getOr (cornerIdx + 2) b
        let cornerYuv := rgbToYuv cornerR cornerG cornerB
        yuvToRgb y cornerYuv.2.1 cornerYuv.2.2
      else (r, g, b)
    write4 st i (max 0 (min 255 (jsRound rgb.1))) (max 0 (min 255 (jsRound rgb.2.1)))
      (max 0 (min 255 (jsRound rgb.2.2))) (data.get (i + 3))) st0
  ⟨st, ⟨width, height, st.out⟩⟩

/-- The catalog record for `yuv`. -/
def yuv : GlitchDefinition :=
  { id := "yuv", name := "YUV/Color Space Errors", category := "pixel-format",
    params := [
      { pname := "mode", ptype := "select",
        poptions := some ["YUV interpreted as RGB", "Swapped U/V (green/purple)",
          "Wrong range (washed out)", "Wrong matrix (color shift)",
          "Missing chroma (grayscale bleed)"],
        pdefault := PVal.str "YUV interpreted as RGB" }],
    apply := yuv_apply }

/-- The coordinate hash of `floatPrecision.apply`: a pure function of the
coordinates.  The int32 product in the middle exceeds 53 bits and is rounded
to the nearest double before the final `ToInt32`, exactly as `roundDouble`
does. -/
def hashFP (x y : ℚ) : ℚ :=
  let h := x * 374761393 + y * 668265263
  let h := jsMulInt (jsXor h (jsShr h 13)) 1274126177
  jsXor h (jsShr h 16) / 4294967296 + 1/2

/-- `floatPrecision.apply` (pixel-format/float-precision). -/
def floatPrecision_apply (imageData : Bitmap) (params : GlitchParams) : Applied :=
  let width := imageData.width
  let height := imageData.height
  let data := imageData.data
  let mode := getStrOr params "mode" "NaN holes (black spots)"
  let intensity := getNumOr params "intensity" 5
  let st0 : St := ⟨data, newImageData width height⟩
  let st := forLoop height (fun y st =>
    forLoop width (fun x st =>
      let idx : ℚ := ((y : ℚ) * width + x) * 4
      let r := data.get idx
      let g := data.get (idx + 1)
      let b := data.get (idx + 2)
      let rgb : ℚ × ℚ × ℚ :=
        if mode = "NaN holes (black spots)" then
          let threshold := intensity * 10
          if ((r + g + b) / 3 < threshold ∨ 255 - threshold < (r + g + b) / 3) ∧
              hashFP (x : ℚ) (y : ℚ) < intensity / 20 then (0, 0, 0)
          else (r, g, b)
        else if mode = "Infinity clipping" then
          let brightness := (r + g + b) / 3
          if 255 - intensity * 10 < brightness then
            let overflowFactor := 1 + (brightness - (255 - intensity * 10)) / 50
            let r := min 255 (r * overflowFactor)
            let g := min 255 (g * overflowFactor)
            let b := min 255 (b * overflowFactor)
            (if 255 < r then 255 else r, if 250 < g then 250 else g,
             if 245 < b then 245 else b)
          else (r, g, b)
        else if mode = "Precision banding" then
          let precision := max 1 (jsFloor (intensity * 3))
          let quantR := max 1 (precision - jsFloor (r / 32))
          let quantG := max 1 (precision - jsFloor (g / 32))
          let quantB := max 1 (precision - jsFloor (b / 32))
          (jsRound (r / quantR) * quantR, jsRound (g / quantG) * quantG,
           jsRound (b / quantB) * quantB)
        else if mode = "Denormal visualization" then
          let denormalThreshold := intensity
          (if r < denormalThreshold then (if 0 < r then 128 else 0) else r,
           if g < denormalThreshold then (if 0 < g then 128 else 0) else g,
           if b < denormalThreshold then (if 0 < b then 128 else 0) else b)
        else if mode = "Random corruption" then
          if hashFP (x : ℚ) (y : ℚ) < intensity / 100 then
            let corruptType := jsFloor (hashFP ((x : ℚ) + 100) (y : ℚ) * 4)
            if corruptType = 0 then (0, 0, 0)
            else if corruptType = 1 then (255, 255, 255)
            else if corruptType = 2 then (255, 0, 255)
            else if corruptType = 3 then
              (jsFloor (hashFP (x : ℚ) ((y : ℚ) + 1) * 256),
               jsFloor (hashFP ((x : ℚ) + 1) (y : ℚ) * 256),
               jsFloor (hashFP ((x : ℚ) + 1) ((y : ℚ) + 1) * 256))
            else (r, g, b)
          else (r, g, b)
        else (r, g, b)
      write4 st idx (max 0 (min 255 (jsRound rgb.1))) (max 0 (min 255 (jsRound rgb.2.1)))
        (max 0 (min 255 (jsRound rgb.2.2))) (data.get (idx + 3))) st) st0
  ⟨st, ⟨width, height, st.out⟩⟩

/-- The catalog record for `float-precision`. -/
def floatPrecision : GlitchDefinition :=
  { id := "float-precision", name := "Float Precision Errors", category := "pixel-format",
    params := [
      { pname := "mode", ptype := "select",
        poptions := some ["NaN holes (black spots)", "Infinity clipping",
          "Precision banding", "Denormal visualization", "Random corruption"],
        pdefault := PVal.str "NaN holes (black spots)" },
      { pname := "intensity", ptype := "range", pmin := some 1, pmax := some 10,
        pstep := some 1, pdefault := PVal.num 5 }],
    apply := floatPrecision_apply }

/-! ## Memory-layout transforms -/

/-- `wrongStride.apply` (memory-layout/wrong-stride). -/
def wrongStride_apply (imageData : Bitmap) (params : GlitchParams) : Applied :=
  let width := imageData.width
  let height := imageData.height
  let data := imageData.data
  let strideError := getNumOr params "strideError" 4
  let correctStride : ℚ := (width : ℚ) * 4
  let wrongStrideV := correctStride + strideError
  let st0 : St := ⟨data, newImageData width height⟩
  let st := forLoop height (fun y st =>
    forLoop width (fun x st =>
      let outIdx : ℚ := ((y : ℚ) * width + x) * 4
      let wrongOffset := (y : ℚ) * wrongStrideV + (x : ℚ) * 4
      let wrongIdx := jsMod wrongOffset (data.size : ℚ)
      if wrongIdx + 3 < (data.size : ℚ) then
        write4 st outIdx (data.get wrongIdx) (data.get (wrongIdx + 1))
          (data.get (wrongIdx + 2)) 255
      else
        write4 st outIdx 0 0 0 255) st) st0
  ⟨st, ⟨width, height, st.out⟩⟩

/-- The catalog record for `wrong-stride`. -/
def wrongStride : GlitchDefinition :=
  { id := "wrong-stride", name := "Wrong Stride", category := "memory-layout",
    params := [
      { pname := "strideError", ptype := "range", pmin := some (-20), pmax := some 20,
        pstep := some 1, pdefault := PVal.num 4 }],
    apply := wrongStride_apply }

/-- `wrongPitch.apply` (memory-layout/wrong-pitch). -/
def wrongPitch_apply (imageData : Bitmap) (params : GlitchParams) : Applied :=
  let width := imageData.width
  let height := imageData.height
  let data := imageData.data
  let pitchMultiplier := getNumOr params "pitchMultiplier" (5/4)
  let correctPitch : ℚ := (width : ℚ) * 4
  let wrongPitchV := jsFloor (correctPitch * pitchMultiplier)
  let st0 : St := ⟨data, newImageData width height⟩
  let st := forLoop height (fun y st =>
    forLoop width (fun x st =>
      let outIdx : ℚ := ((y : ℚ) * width + x) * 4
      let wrongOffset := (y : ℚ) * wrongPitchV + (x : ℚ) * 4
      let wrongIdx := jsMod wrongOffset (data.size : ℚ)
      if wrongIdx + 3 < (data.size : ℚ) then
        write4 st outIdx (data.get wrongIdx) (data.get (wrongIdx + 1))
          (data.get (wrongIdx + 2)) 255
      else
        write4 st outIdx 0 0 0 255) st) st0
  ⟨st, ⟨width, height, st.out⟩⟩

/-- The catalog record for `wrong-pitch`. -/
def wrongPitch : GlitchDefinition :=
  { id := "wrong-pitch", name := "Wrong Pitch", category := "memory-layout",
    params := [
      { pname := "pitchMultiplier", ptype := "range", pmin := some (1/2), pmax := some 2,
        pstep := some (1/10), pdefault := PVal.num (5/4) }],
    apply := wrongPitch_apply }

/-- `rowPadding.apply` (memory-layout/row-padding).  In the BMP branch the
guarded write has no `else`: out-of-range source pixels leave the output
bytes (including alpha) at their zero initialisation. -/
def rowPadding_apply (imageData : Bitmap) (params : GlitchParams) : Applied :=
  let width := imageData.width
  let height := imageData.height
  let data := imageData.data
  let paddingBytes := getNumOr params "paddingBytes" 4
  let simulateBMP := getBoolOr params "simulateBMP"
  let st0 : St := ⟨data, newImageData width height⟩
  let st :=
    if simulateBMP then
      let rowSizeUnpadded : ℚ := (width : ℚ) * 3
      let padding := jsMod (4 - jsMod rowSizeUnpadded 4) 4
      forLoop height (fun y st =>
        forLoop width (fun x st =>
          let outIdx : ℚ := ((y : ℚ) * width + x) * 4
          let unpaddedOffset := (y : ℚ) * rowSizeUnpadded + (x : ℚ) * 3
          let effectiveOffset := unpaddedOffset + (y : ℚ) * padding
          let srcPixel := jsFloor (effectiveOffset / 4)
          let srcIdx := srcPixel * 4
          if srcIdx + 3 < (data.size : ℚ) then
            write4 st outIdx (data.get srcIdx) (data.get (srcIdx + 1))
              (data.get (srcIdx + 2)) 255
          else st) st) st0
    else
      forLoop height (fun y st =>
        forLoop width (fun x st =>
          let outIdx : ℚ := ((y : ℚ) * width + x) * 4
          let offset := (y : ℚ) * paddingBytes
          let srcIdx := jsMod (outIdx + offset) (data.size : ℚ)
          write4 st outIdx (data.get srcIdx)
            (data.get (min (srcIdx + 1) ((data.size : ℚ) - 1)))
            (data.get (min (srcIdx + 2) ((data.size : ℚ) - 1)))
            255) st) st0
  ⟨st, ⟨width, height, st.out⟩⟩

/-- The catalog record for `row-padding`. -/
def rowPadding : GlitchDefinition :=
  { id := "row-padding", name := "Row Padding", category := "memory-layout",
    params := [
      { pname := "paddingBytes", ptype := "range", pmin := some 0, pmax := some 16,
        pstep := some 1, pdefault := PVal.num 4 },
      { pname := "simulateBMP", ptype := "boolean", pdefault := PVal.bool false }],
    apply := rowPadding_apply }

/-- `alignment.apply` (memory-layout/alignment). -/
def alignment_apply (imageData : Bitmap) (params : GlitchParams) : Applied :=
  let width := imageData.width
  let height := imageData.height
  let data := imageData.data
  let offsetBytes := getNumOr params "offsetBytes" 1
  let blockSize := getNumOr params "blockSize" 16
  let st0 : St := ⟨data, newImageData width height⟩
  let st := forLoop ((data.size + 3) / 4) (fun k st =>
    let i : ℚ := ((4 * k : ℕ) : ℚ)
    let blockIndex := jsFloor (i / blockSize)
    let offset := if jsMod blockIndex 2 = 0 then offsetBytes else 0
    let srcIdx := jsMod (i + offset) (data.size : ℚ)
    write4 st i (data.get srcIdx)
      (data.get (min (srcIdx + 1) ((data.size : ℚ) - 1)))
      (data.get (min (srcIdx + 2) ((data.size : ℚ) - 1)))
      (data.get (i + 3))) st0
  ⟨st, ⟨width, height, st.out⟩⟩

/-- The catalog record for `alignment`. -/
def alignment : GlitchDefinition :=
  { id := "alignment", name := "Byte Alignment", category := "memory-layout",
    params := [
      { pname := "offsetBytes", ptype := "range", pmin := some 1, pmax := some 7,
        pstep := some 1, pdefault := PVal.num 1 },
      { pname := "blockSize", ptype := "range", pmin := some 4, pmax := some 64,
        pstep := some 4, pdefault := PVal.num 16 }],
    apply := alignment_apply }

/-- The `splitBits` closure of `swizzle.apply` (Morton bit interleave). -/
def splitBits (x : ℚ) : ℚ :=
  let x := jsAnd (jsOr x (jsShl x 8)) 16711935
  let x := jsAnd (jsOr x (jsShl x 4)) 252645135
  let x := jsAnd (jsOr x (jsShl x 2)) 858993459
  jsAnd (jsOr x (jsShl x 1)) 1431655765

/-- The `mortonEncode` closure of `swizzle.apply`. -/
def mortonEncode (x y : ℚ) : ℚ := jsOr (splitBits x) (jsShl (splitBits y) 1)

/-- The `compactBits` closure of `swizzle.apply`. -/
def compactBits (x : ℚ) : ℚ :=
  let x := jsAnd x 1431655765
  let x := jsAnd (jsOr x (jsShr x 1)) 858993459
  let x := jsAnd (jsOr x (jsShr x 2)) 252645135
  let x := jsAnd (jsOr x (jsShr x 4)) 16711935
  jsAnd (jsOr x (jsShr x 8)) 65535

/-- The `mortonDecode` closure of `swizzle.apply`. -/
def mortonDecode (code : ℚ) : ℚ × ℚ := (compactBits code, compactBits (jsShr code 1))

/-- `swizzle.apply` (memory-layout/swizzle). -/
def swizzle_apply (imageData : Bitmap) (params : GlitchParams) : Applied :=
  let width := imageData.width
  let height := imageData.height
  let data := imageData.data
  let pattern := getStrOr params "pattern" "Morton (Z-order)"
  let inverse := getBoolOr params "inverse"
  let st0 : St := ⟨data, newImageData width height⟩
  let st := forLoop height (fun y st =>
    forLoop width (fun x st =>
      let outIdx : ℚ := ((y : ℚ) * width + x) * 4
      let src : ℚ × ℚ :=
        if inverse then
          if pattern = "Morton (Z-order)" then
            let morton := mortonEncode (x : ℚ) (y : ℚ)
            let linearIdx := jsMod morton ((width : ℚ) * height)
            (jsMod linearIdx (width : ℚ), jsFloor (linearIdx / width))
          else if pattern = "Tiled 8x8" then
            let tileX8 := jsFloor ((x : ℚ) / 8)
            let tileY8 := jsFloor ((y : ℚ) / 8)
            let inTileX8 := jsMod (x : ℚ) 8
            let inTileY8 := jsMod (y : ℚ) 8
            let tilesPerRow8 := jsCeil ((width : ℚ) / 8)
            let linearIdx := (tileY8 * tilesPerRow8 + tileX8) * 64 + inTileY8 * 8 + inTileX8
            let linearIdx := jsMod linearIdx ((width : ℚ) * height)
            (jsMod linearIdx (width : ℚ), jsFloor (linearIdx / width))
          else if pattern = "Tiled 4x4" then
            let tileX4 := jsFloor ((x : ℚ) / 4)
            let tileY4 := jsFloor ((y : ℚ) / 4)
            let inTileX4 := jsMod (x : ℚ) 4
            let inTileY4 := jsMod (y : ℚ) 4
            let tilesPerRow4 := jsCeil ((width : ℚ) / 4)
            let linearIdx := (tileY4 * tilesPerRow4 + tileX4) * 16 + inTileY4 * 4 + inTileX4
            let linearIdx := jsMod linearIdx ((width : ℚ) * height)
            (jsMod linearIdx (width : ℚ), jsFloor (linearIdx / width))
          else if pattern = "Interleaved rows" then
            ((x : ℚ), if jsMod (y : ℚ) 2 = 0 then jsFloor ((y : ℚ) / 2)
              else jsFloor ((y : ℚ) / 2) + jsFloor ((height : ℚ) / 2))
          else ((x : ℚ), (y : ℚ))
        else
          let linearIdx : ℚ := (y : ℚ) * width + x
          if pattern = "Morton (Z-order)" then
            let d := mortonDecode linearIdx
            (jsMod d.1 (width : ℚ), jsMod d.2 (height : ℚ))
          else if pattern = "Tiled 8x8" then
            let tile8 := jsFloor (linearIdx / 64)
            let inTile8 := jsMod linearIdx 64
            let tilesPerRow8 := jsCeil ((width : ℚ) / 8)
            let tileX8 := jsMod tile8 tilesPerRow8
            let tileY8 := jsFloor (tile8 / tilesPerRow8)
            (tileX8 * 8 + jsMod inTile8 8, tileY8 * 8 + jsFloor (inTile8 / 8))
          else if pattern = "Tiled 4x4" then
            let tile4 := jsFloor (linearIdx / 16)
            let inTile4 := jsMod linearIdx 16
            let tilesPerRow4 := jsCeil ((width : ℚ) / 4)
            let tileX4 := jsMod tile4 tilesPerRow4
            let tileY4 := jsFloor (tile4 / tilesPerRow4)
            (tileX4 * 4 + jsMod inTile4 4, tileY4 * 4 + jsFloor (inTile4 / 4))
          else if pattern = "Interleaved rows" then
            ((x : ℚ), if (y : ℚ) < (height : ℚ) / 2 then (y : ℚ) * 2
              else ((y : ℚ) - jsFloor ((height : ℚ) / 2)) * 2 + 1)
          else ((x : ℚ), (y : ℚ))
      let srcX := max 0 (min ((width : ℚ) - 1) src.1)
      let srcY := max 0 (min ((height : ℚ) - 1) src.2)
      let srcIdx := (srcY * width + srcX) * 4
      write4 st outIdx (data.get srcIdx) (data.get (srcIdx + 1))
        (data.get (srcIdx + 2)) (data.get (srcIdx + 3))) st) st0
  ⟨st, ⟨width, height, st.out⟩⟩

/-- The catalog record for `swizzle`. -/
def swizzle : GlitchDefinition :=
  { id := "swizzle", name := "Swizzle/Tiled Layout", category := "memory-layout",
    params := [
      { pname := "pattern", ptype := "select",
        poptions := some ["Morton (Z-order)", "Tiled 8x8", "Tiled 4x4", "Interleaved rows"],
        pdefault := PVal.str "Morton (Z-order)" },
      { pname := "inverse", ptype := "boolean", pdefault := PVal.bool false }],
    apply := swizzle_apply }

/-! ## The registry (src/glitches/index.ts) -/

/-- The ordered catalog `glitches`, parameterised by the abstract
`Math.pow`. -/
def glitches (pw : ℚ → ℚ → ℚ) : List GlitchDefinition :=
  [rgbaAsRgb, rgbAsRgba, bgrSwap, argbOrder, endianness, channelShift,
   bitDepth pw, gamma pw, premultipliedAlpha, signedUnsigned, compression,
   yuv, floatPrecision,
   wrongStride, wrongPitch, rowPadding, alignment, swizzle,
   offByOne, flippedAxis, uvWrapping, aspectRatio, sampling, halfPixel, mipmap pw]

/-- `glitchById`: the id-indexed lookup (a `Map` in the source; with the ids
pairwise distinct — claim C8 — first-match lookup realises it). -/
def glitchById (pw : ℚ → ℚ → ℚ) (id : String) : Option GlitchDefinition :=
  (glitches pw).find? (fun g => g.id == id)

/-- The three category views of `glitchesByCategory`. -/
structure GlitchesByCategory where
  pixelFormat : List GlitchDefinition
  memoryLayout : List GlitchDefinition
  coordinates : List GlitchDefinition

/-- `glitchesByCategory`: the category-filtered views, built once from the
catalog. -/
def glitchesByCategory (pw : ℚ → ℚ → ℚ) : GlitchesByCategory :=
  { pixelFormat := (glitches pw).filter (fun g => g.category == "pixel-format"),
    memoryLayout := (glitches pw).filter (fun g => g.category == "memory-layout"),
    coordinates := (glitches pw).filter (fun g => g.category == "coordinates") }

/-! ## Invariant machinery: loop folds preserve the input buffer and the
output size -/

/-- A fold over any index list preserves any invariant its step preserves. -/
lemma foldl_inv {α : Type} (P : α → Prop) (f : ℕ → α → α) :
    ∀ (l : List ℕ) (a : α), P a → (∀ i a, P a → P (f i a)) →
      P (l.foldl (fun a i => f i a) a)
  | [], _, h, _ => h
  | i :: l, a, h, hstep => foldl_inv P f l (f i a) (hstep i a h) hstep

/-- `forLoop` preserves any invariant its body preserves. -/
lemma forLoop_inv {α : Type} (P : α → Prop) (f : ℕ → α → α)
    (hstep : ∀ i a, P a → P (f i a)) (n : ℕ) (a : α) (h0 : P a) :
    P (forLoop n f a) :=
  foldl_inv P f (List.range n) a h0 hstep

/-- A store never changes the buffer length. -/
lemma Buf.set_size (b : Buf) (i v : ℚ) : (b.set i v).size = b.size := by
  unfold Buf.set; split <;> rfl

/-- Four stores never change the buffer length. -/
lemma set4_size (b : Buf) (base v0 v1 v2 v3 : ℚ) :
    (set4 b base v0 v1 v2 v3).size = b.size := by
  unfold set4; rw [Buf.set_size, Buf.set_size, Buf.set_size, Buf.set_size]

/-- The invariant carried through every `apply` run: the input buffer is the
original one and the output buffer has length `k`. -/
def StOk (d : Buf) (k : ℕ) (s : St) : Prop := s.inp = d ∧ s.out.size = k

/-- `writeOut` preserves the run invariant. -/
lemma stOk_writeOut {d : Buf} {k : ℕ} (i v : ℚ) {s : St} (h : StOk d k s) :
    StOk d k (writeOut s i v) :=
  ⟨h.1, (Buf.set_size s.out i v).trans h.2⟩

/-- `write4` preserves the run invariant. -/
lemma stOk_write4 {d : Buf} {k : ℕ} (base v0 v1 v2 v3 : ℚ) {s : St} (h : StOk d k s) :
    StOk d k (write4 s base v0 v1 v2 v3) :=
  ⟨h.1, (set4_size s.out base v0 v1 v2 v3).trans h.2⟩

/-- What claims C1 and C2 need of one transform: `apply` returns a bitmap of
the input dimensions built from the final output buffer, the final output
buffer has length `width*height*4`, and the final input buffer is untouched. -/
def GoodApply (f : Bitmap → GlitchParams → Applied) : Prop :=
  ∀ img p, (f img p).result = ⟨img.width, img.height, (f img p).finalSt.out⟩ ∧
    StOk img.data (img.width * img.height * 4) (f img p).finalSt

lemma good_offByOne : GoodApply offByOne_apply := by
  intro img p
  refine ⟨rfl, ?_⟩
  unfold offByOne_apply
  dsimp only
  refine forLoop_inv _ _ ?_ _ _ ⟨rfl, rfl⟩
  intro y s hs
  refine forLoop_inv _ _ ?_ _ _ hs
  intro x s hs
  exact stOk_write4 _ _ _ _ _ hs

lemma good_flippedAxis : GoodApply flippedAxis_apply := by
  intro img p
  refine ⟨rfl, ?_⟩
  unfold flippedAxis_apply
  dsimp only
  refine forLoop_inv _ _ ?_ _ _ ⟨rfl, rfl⟩
  intro y s hs
  refine forLoop_inv _ _ ?_ _ _ hs
  intro x s hs
  exact stOk_write4 _ _ _ _ _ hs

lemma good_mipmap (pw : ℚ → ℚ → ℚ) : GoodApply (mipmap_apply pw) := by
  intro img p
  refine ⟨rfl, ?_⟩
  unfold mipmap_apply
  dsimp only
  refine forLoop_inv _ _ ?_ _ _ ⟨rfl, rfl⟩
  intro y s hs
  refine forLoop_inv _ _ ?_ _ _ hs
  intro x s hs
  refine stOk_writeOut _ _ ?_
  split
  · exact stOk_writeOut _ _ (stOk_writeOut _ _ (stOk_writeOut _ _ hs))
  · exact stOk_writeOut _ _ (stOk_writeOut _ _ (stOk_writeOut _ _ hs))

lemma good_uvWrapping : GoodApply uvWrapping_apply := by
  intro img p
  refine ⟨rfl, ?_⟩
  unfold uvWrapping_apply
  dsimp only
  refine forLoop_inv _ _ ?_ _ _ ⟨rfl, rfl⟩
  intro y s hs
  refine forLoop_inv _ _ ?_ _ _ hs
  intro x s hs
  split
  · exact stOk_write4 _ _ _ _ _ hs
  · exact stOk_write4 _ _ _ _ _ hs

lemma good_aspectRatio : GoodApply aspectRatio_apply := by
  intro img p
  refine ⟨rfl, ?_⟩
  unfold aspectRatio_apply
  dsimp only
  refine forLoop_inv _ _ ?_ _ _ ⟨rfl, rfl⟩
  intro y s hs
  refine forLoop_inv _ _ ?_ _ _ hs
  intro x s hs
  exact stOk_write4 _ _ _ _ _ hs

lemma good_sampling : GoodApply sampling_apply := by
  intro img p
  refine ⟨rfl, ?_⟩
  unfold sampling_apply
  dsimp only
  refine forLoop_inv _ _ ?_ _ _ ⟨rfl, rfl⟩
  intro y s hs
  refine forLoop_inv _ _ ?_ _ _ hs
  intro x s hs
  exact stOk_write4 _ _ _ _ _ hs

lemma good_halfPixel : GoodApply halfPixel_apply := by
  intro img p
  refine ⟨rfl, ?_⟩
  unfold halfPixel_apply
  dsimp only
  refine forLoop_inv _ _ ?_ _ _ ⟨rfl, rfl⟩
  intro y s hs
  refine forLoop_inv _ _ ?_ _ _ hs
  intro x s hs
  exact stOk_write4 _ _ _ _ _ hs

lemma good_rgbaAsRgb : GoodApply rgbaAsRgb_apply := by
  intro img p
  refine ⟨rfl, ?_⟩
  unfold rgbaAsRgb_apply
  dsimp only
  refine forLoop_inv _ _ ?_ _ _ ⟨rfl, rfl⟩
  intro y s hs
  refine forLoop_inv _ _ ?_ _ _ hs
  intro x s hs
  split
  · exact stOk_write4 _ _ _ _ _ hs
  · exact stOk_write4 _ _ _ _ _ hs

lemma good_rgbAsRgba : GoodApply rgbAsRgba_apply := by
  intro img p
  refine ⟨rfl, ?_⟩
  unfold rgbAsRgba_apply
  dsimp only
  refine forLoop_inv _ _ ?_ _ _ ⟨rfl, rfl⟩
  intro y s hs
  refine forLoop_inv _ _ ?_ _ _ hs
  intro x s hs
  split
  · exact stOk_write4 _ _ _ _ _ hs
  · exact stOk_write4 _ _ _ _ _ hs

lemma good_bgrSwap : GoodApply bgrSwap_apply := by
  intro img p
  refine ⟨rfl, ?_⟩
  unfold bgrSwap_apply
  dsimp only
  refine forLoop_inv _ _ ?_ _ _ ⟨rfl, rfl⟩
  intro k s hs
  split
  · exact stOk_write4 _ _ _ _ _ hs
  · split
    · exact stOk_write4 _ _ _ _ _ hs
    · split
      · exact stOk_write4 _ _ _ _ _ hs
      · exact stOk_write4 _ _ _ _ _ hs

lemma good_argbOrder : GoodApply argbOrder_apply := by
  intro img p
  refine ⟨rfl, ?_⟩
  unfold argbOrder_apply
  dsimp only
  refine forLoop_inv _ _ ?_ _ _ ⟨rfl, rfl⟩
  intro k s hs
  split
  · exact stOk_write4 _ _ _ _ _ hs
  · split
    · exact stOk_write4 _ _ _ _ _ hs
    · split
      · exact stOk_write4 _ _ _ _ _ hs
      · split
        · exact stOk_write4 _ _ _ _ _ hs
        · split
          · exact stOk_write4 _ _ _ _ _ hs
          · exact stOk_write4 _ _ _ _ _ hs

lemma good_endianness : GoodApply endianness_apply := by
  intro img p
  refine ⟨rfl, ?_⟩
  unfold endianness_apply
  dsimp only
  refine forLoop_inv _ _ ?_ _ _ ⟨rfl, rfl⟩
  intro k s hs
  split
  · exact stOk_write4 _ _ _ _ _ hs
  · split
    · exact stOk_write4 _ _ _ _ _ hs
    · split
      · exact stOk_write4 _ _ _ _ _ hs
      · exact stOk_write4 _ _ _ _ _ hs

lemma good_channelShift : GoodApply channelShift_apply := by
  intro img p
  refine ⟨rfl, ?_⟩
  unfold channelShift_apply
  dsimp only
  refine forLoop_inv _ _ ?_ _ _ ⟨rfl, rfl⟩
  intro y s hs
  refine forLoop_inv _ _ ?_ _ _ hs
  intro x s hs
  exact stOk_write4 _ _ _ _ _ hs

lemma good_bitDepth (pw : ℚ → ℚ → ℚ) : GoodApply (bitDepth_apply pw) := by
  intro img p
  refine ⟨rfl, ?_⟩
  unfold bitDepth_apply
  dsimp only
  refine forLoop_inv _ _ ?_ _ _ ⟨rfl, rfl⟩
  intro k s hs
  exact stOk_write4 _ _ _ _ _ hs

lemma good_gamma (pw : ℚ → ℚ → ℚ) : GoodApply (gamma_apply pw) := by
  intro img p
  refine ⟨rfl, ?_⟩
  unfold gamma_apply
  dsimp only
  refine forLoop_inv _ _ ?_ _ _ ⟨rfl, rfl⟩
  intro k s hs
  exact stOk_write4 _ _ _ _ _ hs

lemma good_premultipliedAlpha : GoodApply premultipliedAlpha_apply := by
  intro img p
  refine ⟨rfl, ?_⟩
  unfold premultipliedAlpha_apply
  dsimp only
  refine forLoop_inv _ _ ?_ _ _ ⟨rfl, rfl⟩
  intro k s hs
  exact stOk_write4 _ _ _ _ _ hs

lemma good_signedUnsigned : GoodApply signedUnsigned_apply := by
  intro img p
  refine ⟨rfl, ?_⟩
  unfold signedUnsigned_apply
  dsimp only
  refine forLoop_inv _ _ ?_ _ _ ⟨rfl, rfl⟩
  intro k s hs
  exact stOk_write4 _ _ _ _ _ hs

lemma good_compression : GoodApply compression_apply := by
  intro img p
  refine ⟨rfl, ?_⟩
  unfold compression_apply
  dsimp only
  refine forLoop_inv _ _ ?_ _ _ ⟨rfl, rfl⟩
  intro bi s hs
  refine forLoop_inv _ _ ?_ _ _ hs
  intro bj s hs
  refine forLoop_inv _ _ ?_ _ _ hs
  intro dy s hs
  refine forLoop_inv _ _ ?_ _ _ hs
  intro dx s hs
  exact stOk_write4 _ _ _ _ _ hs

lemma good_yuv : GoodApply yuv_apply := by
  intro img p
  refine ⟨rfl, ?_⟩
  unfold yuv_apply
  dsimp only
  refine forLoop_inv _ _ ?_ _ _ ⟨rfl, rfl⟩
  intro k s hs
  exact stOk_write4 _ _ _ _ _ hs

lemma good_floatPrecision : GoodApply floatPrecision_apply := by
  intro img p
  refine ⟨rfl, ?_⟩
  unfold floatPrecision_apply
  dsimp only
  refine forLoop_inv _ _ ?_ _ _ ⟨rfl, rfl⟩
  intro y s hs
  refine forLoop_inv _ _ ?_ _ _ hs
  intro x s hs
  exact stOk_write4 _ _ _ _ _ hs

lemma good_wrongStride : GoodApply wrongStride_apply := by
  intro img p
  refine ⟨rfl, ?_⟩
  unfold wrongStride_apply
  dsimp only
  refine forLoop_inv _ _ ?_ _ _ ⟨rfl, rfl⟩
  intro y s hs
  refine forLoop_inv _ _ ?_ _ _ hs
  intro x s hs
  split
  · exact stOk_write4 _ _ _ _ _ hs
  · exact stOk_write4 _ _ _ _ _ hs

lemma good_wrongPitch : GoodApply wrongPitch_apply := by
  intro img p
  refine ⟨rfl, ?_⟩
  unfold wrongPitch_apply
  dsimp only
  refine forLoop_inv _ _ ?_ _ _ ⟨rfl, rfl⟩
  intro y s hs
  refine forLoop_inv _ _ ?_ _ _ hs
  intro x s hs
  split
  · exact stOk_write4 _ _ _ _ _ hs
  · exact stOk_write4 _ _ _ _ _ hs

lemma good_rowPadding : GoodApply rowPadding_apply := by
  intro img p
  refine ⟨rfl, ?_⟩
  unfold rowPadding_apply
  dsimp only
  split
  · refine forLoop_inv _ _ ?_ _ _ ⟨rfl, rfl⟩
    intro y s hs
    refine forLoop_inv _ _ ?_ _ _ hs
    intro x s hs
    split
    · exact stOk_write4 _ _ _ _ _ hs
    · exact hs
  · refine forLoop_inv _ _ ?_ _ _ ⟨rfl, rfl⟩
    intro y s hs
    refine forLoop_inv _ _ ?_ _ _ hs
    intro x s hs
    exact stOk_write4 _ _ _ _ _ hs

lemma good_alignment : GoodApply alignment_apply := by
  intro img p
  refine ⟨rfl, ?_⟩
  unfold alignment_apply
  dsimp only
  refine forLoop_inv _ _ ?_ _ _ ⟨rfl, rfl⟩
  intro k s hs
  exact stOk_write4 _ _ _ _ _ hs

lemma good_swizzle : GoodApply swizzle_apply := by
  intro img p
  refine ⟨rfl, ?_⟩
  unfold swizzle_apply
  dsimp only
  refine forLoop_inv _ _ ?_ _ _ ⟨rfl, rfl⟩
  intro y s hs
  refine forLoop_inv _ _ ?_ _ _ hs
  intro x s hs
  exact stOk_write4 _ _ _ _ _ hs

/-- Every registered transform satisfies `GoodApply`. -/
lemma good_catalog (pw : ℚ → ℚ → ℚ) (g : GlitchDefinition) (hg : g ∈ glitches pw) :
    GoodApply g.apply := by
  simp only [glitches, List.mem_cons, List.not_mem_nil, or_false] at hg
  rcases hg with rfl|rfl|rfl|rfl|rfl|rfl|rfl|rfl|rfl|rfl|rfl|rfl|rfl|rfl|rfl|rfl|rfl|rfl|rfl|rfl|rfl|rfl|rfl|rfl|rfl
  exacts [good_rgbaAsRgb, good_rgbAsRgba, good_bgrSwap, good_argbOrder, good_endianness,
    good_channelShift, good_bitDepth pw, good_gamma pw, good_premultipliedAlpha,
    good_signedUnsigned, good_compression, good_yuv, good_floatPrecision,
    good_wrongStride, good_wrongPitch, good_rowPadding, good_alignment, good_swizzle,
    good_offByOne, good_flippedAxis, good_uvWrapping, good_aspectRatio, good_sampling,
    good_halfPixel, good_mipmap pw]

/-! ## Fault-faithful semantics

Two registered transforms can throw a `TypeError` in JS and return nothing:
`mipmap` dereferences `mipLevels[mipLevel].width` with an index that is
negative for a negative `lodBias`, and `compression` calls
`blockSizeStr.startsWith` on a `||`-kept truthy non-string `blockSize`.
The definitions below model those faults with `Option`; on every
non-faulting run they agree with the total embedding. -/

/-- A `for` loop whose body can throw: the state is threaded through
`Option` and a faulting iteration aborts the remainder of the loop. -/
def forLoopO {α : Type} (n : ℕ) (f : ℕ → α → Option α) (a : α) : Option α :=
  (List.range n).foldl (fun oa i => oa.bind (f i)) (some a)

/-- Fault-faithful `mipmap.apply`.  For every pixel, in row-major order, the
source computes `mipLevel` — a pure function of `x`, `y`, the mode, the
bias and the chain length, which the pixel writes cannot influence — and
dereferences `mipLevels[mipLevel]` followed by `mip.width`, which throws
when the index is invalid.  This definition runs that dereference over the
same pixels in the same order with the same `mipLevel` expression and
aborts at the first fault; when no pixel faults the run completes, and its
value is exactly `mipmap_apply`.  (String values for numeric parameters,
which JS would coerce through `Number`, are outside the modelled parameter
space, as documented at `getNumOr`.) -/
def mipmap_applyE (pw : ℚ → ℚ → ℚ) (imageData : Bitmap) (params : GlitchParams) :
    Option Applied :=
  let width := imageData.width
  let height := imageData.height
  let data := imageData.data
  let mode := getStrOr params "mode" "Too blurry (high LOD)"
  let lodBias := getNumOr params "lodBias" 2
  let mipLevels := buildMips (width + height + 1) [(width, height, data)] data width height
  let ok := forLoopO height (fun y u =>
    forLoopO width (fun x _ =>
      let mipLevel : ℚ :=
        if mode = "Too blurry (high LOD)" then
          min ((mipLevels.length : ℚ) - 1) (jsFloor lodBias)
        else if mode = "Aliased (low LOD)" then 0
        else if mode = "Wrong mip level" then
          jsMod (jsFloor (((x : ℚ) + y) / 32)) (mipLevels.length : ℚ)
        else if mode = "Visualize mip levels" then
          min ((mipLevels.length : ℚ) - 1) (jsFloor lodBias)
        else 0
      (mipAtE mipLevels mipLevel).map (fun _ => ())) u) ()
  ok.map (fun _ => mipmap_apply pw imageData params)

/-- Fault-faithful resolution of `(params.k as string) || d` followed by a
string-method call on the result: when `||` keeps a truthy non-string value
the call (`blockSizeStr.startsWith` in the source) throws a `TypeError`,
modelled as `none`.  Compare `getStrOr`, which is adequate for the
transforms that only compare the resolved value against `case` labels. -/
def getStrOrE (p : GlitchParams) (k : String) (d : String) : Option String :=
  match lookupP p k with
  | some (PVal.str s) => some (if s = "" then d else s)
  | some (PVal.num q) => if q = 0 then some d else none
  | some (PVal.bool b) => if b then none else some d
  | none => some d

/-- Fault-faithful `compression.apply`: the source resolves `blockSize` and
immediately calls `.startsWith` on it — before any allocation or loop — so
the run either throws there (`none`) or completes exactly as
`compression_apply`. -/
def compression_applyE (imageData : Bitmap) (params : GlitchParams) : Option Applied :=
  (getStrOrE params "blockSize" "8x8 (JPEG)").map
    (fun _ => compression_apply imageData params)

/-- On every non-faulting index the fault-faithful mip read agrees with the
total one. -/
lemma mipAtE_some (ls : List (ℕ × ℕ × Buf)) (q : ℚ) (m : ℕ × ℕ × Buf)
    (h : mipAtE ls q = some m) : mipAt ls q = m := by
  unfold mipAtE at h
  unfold mipAt
  split_ifs with hc
  · rw [if_pos hc] at h
    exact Option.some.inj h
  · rw [if_neg hc] at h
    exact Option.noConfusion h

/-- On every non-faulting value the fault-faithful string resolution agrees
with the total one. -/
lemma getStrOrE_some (p : GlitchParams) (k d s : String)
    (h : getStrOrE p k d = some s) : getStrOr p k d = s := by
  unfold getStrOrE at h
  unfold getStrOr
  revert h
  rcases lookupP p k with _ | (q | b | s')
  · intro h
    exact Option.some.inj h
  · intro h
    dsimp only at h ⊢
    by_cases hq : q = 0
    · rw [if_pos hq] at h ⊢
      exact Option.some.inj h
    · rw [if_neg hq] at h
      exact Option.noConfusion h
  · intro h
    cases b
    · exact Option.some.inj h
    · exact Option.noConfusion h
  · intro h
    exact Option.some.inj h

/-! ## Claims C1, C2, C3, C8 -/

/-- Shape preservation in the total model: every completed run of the
embedding returns a bitmap with the input's width and height and a
`width*height*4` buffer.  Two transforms' sources can instead throw and
return nothing (mipmap with a negative `lodBias`, compression with a
non-string `blockSize`; see `mipmap_applyE` and `compression_applyE`), so
this is a fact about the runs that complete, not the claimed unconditional
shape preservation. -/
theorem shape_preservation_total_model (pw : ℚ → ℚ → ℚ) (g : GlitchDefinition)
    (hg : g ∈ glitches pw) (img : Bitmap) (p : GlitchParams)
    (hwf : img.data.size = img.width * img.height * 4) :
    (g.apply img p).result.width = img.width ∧
    (g.apply img p).result.height = img.height ∧
    (g.apply img p).result.data.size = img.width * img.height * 4 := by
  obtain ⟨hres, hok⟩ := good_catalog pw g hg img p
  rw [hres]
  exact ⟨rfl, rfl, hok.2⟩

/-- Witness for the total-model shape preservation at a concrete catalog
member, bitmap and parameter map. -/
theorem shape_preservation_total_model_witness :
    bgrSwap ∈ glitches (fun _ _ => 0) ∧
    (bgrSwap.apply ⟨2, 1, ⟨8, fun n => n⟩⟩ []).result.width = 2 ∧
    (bgrSwap.apply ⟨2, 1, ⟨8, fun n => n⟩⟩ []).result.height = 1 ∧
    (bgrSwap.apply ⟨2, 1, ⟨8, fun n => n⟩⟩ []).result.data.size = 2 * 1 * 4 :=
  ⟨by simp [glitches],
   shape_preservation_total_model (fun _ _ => 0) bgrSwap (by simp [glitches])
     ⟨2, 1, ⟨8, fun n => n⟩⟩ [] rfl⟩

/-- C1: unconditional shape preservation fails — two transforms of the
registered catalog can throw and return no bitmap at all.  On a well-formed
1×1 bitmap, `mipmap` with `lodBias = -1` (kept by `||` since `-1` is
truthy) computes `mipLevel = min(len-1, floor(-1)) = -1`, `mipLevels[-1]`
is `undefined` and the `mip.width` access throws; `compression` with the
number `3` as `blockSize` keeps it through `||` and `.startsWith` throws.
The fault-faithful runs return `none` there, while every completed
fault-faithful run agrees with the total embedding (whose runs all preserve
shape, `shape_preservation_total_model`). -/
theorem catalog_shape_preservation_crash (pw : ℚ → ℚ → ℚ) :
    mipmap pw ∈ glitches pw ∧ compression ∈ glitches pw ∧
    (⟨1, 1, ⟨4, fun _ => 0⟩⟩ : Bitmap).data.size = 1 * 1 * 4 ∧
    mipmap_applyE pw ⟨1, 1, ⟨4, fun _ => 0⟩⟩ [("lodBias", PVal.num (-1))] = none ∧
    compression_applyE ⟨1, 1, ⟨4, fun _ => 0⟩⟩ [("blockSize", PVal.num 3)] = none ∧
    (∀ img p a, mipmap_applyE pw img p = some a → a = mipmap_apply pw img p) ∧
    (∀ img p a, compression_applyE img p = some a → a = compression_apply img p) := by
  refine ⟨by simp [glitches], by simp [glitches], by decide, ?_, ?_, ?_, ?_⟩
  · with_unfolding_all rfl
  · with_unfolding_all rfl
  · intro img p a h
    unfold mipmap_applyE at h
    simp only [Option.map_eq_some'] at h
    obtain ⟨u, hu, ha⟩ := h
    exact ha.symm
  · intro img p a h
    unfold compression_applyE at h
    simp only [Option.map_eq_some'] at h
    obtain ⟨s, hs, ha⟩ := h
    exact ha.symm

/-- Witness for C1: the two faulting runs evaluated at a concrete bitmap
and `Math.pow`, and the agreement conjuncts discharged at concrete
non-faulting runs. -/
theorem catalog_shape_preservation_crash_witness :
    mipmap_applyE (fun _ _ => 1) ⟨1, 1, ⟨4, fun _ => 0⟩⟩ [("lodBias", PVal.num (-1))]
      = none ∧
    compression_applyE ⟨1, 1, ⟨4, fun _ => 0⟩⟩ [("blockSize", PVal.num 3)] = none ∧
    mipmap_apply (fun _ _ => 1) ⟨1, 1, ⟨4, fun _ => 0⟩⟩ []
      = mipmap_apply (fun _ _ => 1) ⟨1, 1, ⟨4, fun _ => 0⟩⟩ [] ∧
    compression_apply ⟨1, 1, ⟨4, fun _ => 0⟩⟩ []
      = compression_apply ⟨1, 1, ⟨4, fun _ => 0⟩⟩ [] :=
  ⟨(catalog_shape_preservation_crash (fun _ _ => 1)).2.2.2.1,
   (catalog_shape_preservation_crash (fun _ _ => 1)).2.2.2.2.1,
   (catalog_shape_preservation_crash (fun _ _ => 1)).2.2.2.2.2.1 _ _ _
     (by with_unfolding_all rfl),
   (catalog_shape_preservation_crash (fun _ _ => 1)).2.2.2.2.2.2 _ _ _
     (by with_unfolding_all rfl)⟩

/-- C2: for every transform in the registered catalog, every bitmap and
every parameter map, the run leaves the input buffer — threaded through the
run state — untouched: every byte of the input bitmap's pixel buffer is
unchanged (a fresh output buffer receives all writes). -/
theorem catalog_no_input_mutation (pw : ℚ → ℚ → ℚ) (g : GlitchDefinition)
    (hg : g ∈ glitches pw) (img : Bitmap) (p : GlitchParams) :
    (g.apply img p).finalSt.inp = img.data ∧
    ∀ i, (g.apply img p).finalSt.inp.val i = img.data.val i := by
  have h := (good_catalog pw g hg img p).2.1
  exact ⟨h, fun i => by rw [h]⟩

/-- Witness for C2 at a concrete catalog member, bitmap and parameter map. -/
theorem catalog_no_input_mutation_witness :
    offByOne ∈ glitches (fun _ _ => 0) ∧
    (offByOne.apply ⟨1, 1, ⟨4, fun n => n + 7⟩⟩ []).finalSt.inp.val 2 = 9 :=
  ⟨by simp [glitches],
   by
    rw [(catalog_no_input_mutation (fun _ _ => 0) offByOne (by simp [glitches])
      ⟨1, 1, ⟨4, fun n => n + 7⟩⟩ []).2 2]⟩

/-- C3: for every transform in the registered catalog, two invocations of
`apply` on bitmaps with identical dimensions and identical buffer contents
(even if the valuation functions differ intensionally) and with identical
parameter values return identical results, byte for byte — the embedding is
a pure function of the coordinate data, including the hash-keyed corruption
transforms whose `hash` is the pure coordinate function `hashFP`. -/
theorem catalog_determinism (pw : ℚ → ℚ → ℚ) (g : GlitchDefinition)
    (hg : g ∈ glitches pw) (w h sz : ℕ) (f1 f2 : ℕ → ℕ) (p1 p2 : GlitchParams)
    (hdata : ∀ i, f1 i = f2 i) (hp : p1 = p2) :
    g.apply ⟨w, h, ⟨sz, f1⟩⟩ p1 = g.apply ⟨w, h, ⟨sz, f2⟩⟩ p2 := by
  have hf : f1 = f2 := funext hdata
  rw [hf, hp]

/-- Witness for C3 at a concrete catalog member, bitmap pair and parameters. -/
theorem catalog_determinism_witness :
    floatPrecision ∈ glitches (fun _ _ => 0) ∧
    floatPrecision.apply ⟨1, 1, ⟨4, fun n => n * 3⟩⟩ [("intensity", PVal.num 7)]
      = floatPrecision.apply ⟨1, 1, ⟨4, fun n => 3 * n⟩⟩ [("intensity", PVal.num 7)] :=
  ⟨by simp [glitches],
   catalog_determinism (fun _ _ => 0) floatPrecision (by simp [glitches]) 1 1 4
     (fun n => n * 3) (fun n => 3 * n) _ _ (fun i => Nat.mul_comm i 3) rfl⟩

/-- C8: no two registered transforms share an id, and each of the three
by-category views contains exactly the catalog transforms whose `category`
field matches, as a sublist of the catalog (hence in original declaration
order). -/
theorem registry_uniqueness_and_categories (pw : ℚ → ℚ → ℚ) :
    ((glitches pw).map (fun g => g.id)).Nodup ∧
    (∀ g, g ∈ (glitchesByCategory pw).pixelFormat ↔
      g ∈ glitches pw ∧ g.category = "pixel-format") ∧
    (glitchesByCategory pw).pixelFormat.Sublist (glitches pw) ∧
    (∀ g, g ∈ (glitchesByCategory pw).memoryLayout ↔
      g ∈ glitches pw ∧ g.category = "memory-layout") ∧
    (glitchesByCategory pw).memoryLayout.Sublist (glitches pw) ∧
    (∀ g, g ∈ (glitchesByCategory pw).coordinates ↔
      g ∈ glitches pw ∧ g.category = "coordinates") ∧
    (glitchesByCategory pw).coordinates.Sublist (glitches pw) := by
  refine ⟨?_, ?_, List.filter_sublist _, ?_, List.filter_sublist _, ?_, List.filter_sublist _⟩
  · have hids : (glitches pw).map (fun g => g.id) =
      ["rgba-as-rgb", "rgb-as-rgba", "bgr-swap", "argb-order", "endianness",
       "channel-shift", "bit-depth", "gamma", "premultiplied-alpha", "signed-unsigned",
       "compression", "yuv", "float-precision", "wrong-stride", "wrong-pitch",
       "row-padding", "alignment", "swizzle", "off-by-one", "flipped-axis",
       "uv-wrapping", "aspect-ratio", "sampling", "half-pixel", "mipmap"] := rfl
    rw [hids]
    decide
  · intro g
    simp [glitchesByCategory, List.mem_filter]
  · intro g
    simp [glitchesByCategory, List.mem_filter]
  · intro g
    simp [glitchesByCategory, List.mem_filter]

/-- Witness for C8: a concrete transform sits in its category's view. -/
theorem registry_uniqueness_and_categories_witness :
    bgrSwap ∈ (glitchesByCategory (fun _ _ => 0)).pixelFormat :=
  ((registry_uniqueness_and_categories (fun _ _ => 0)).2.1 bgrSwap).mpr
    ⟨by simp [glitches], rfl⟩

/-! ## Claims C4 and C5: the `||`-coalescing bugs -/

/-- A 2×1 bitmap whose bytes are `0..7` (red channel differs between the two
pixels). -/
def twoPixelRamp : Bitmap := ⟨2, 1, ⟨8, fun n => n⟩⟩

/-- The channel-shift schema defaults, supplied explicitly as parameters. -/
def channelShiftDefaults : GlitchParams :=
  [("redShift", PVal.num 5), ("greenShift", PVal.num 0), ("blueShift", PVal.num (-5))]

/-- C4 (code bug): channel-shift's schema declares defaults
`redShift = 5, greenShift = 0, blueShift = -5`, but `apply` coalesces the
missing keys with `|| 0`, so the empty parameter map behaves as
`redShift = 0` (identity on red: output byte 0 is input byte 0), while the
map completed with the schema defaults shifts red (output byte 0 is input
byte 4).  The two runs differ, refuting "a parameter whose key is absent is
resolved to the declared schema default". -/
theorem channelShift_default_mismatch :
    channelShift.params.map (fun d => d.pdefault) =
      [PVal.num 5, PVal.num 0, PVal.num (-5)] ∧
    (channelShift.apply twoPixelRamp []).result.data.val 0 = 0 ∧
    (channelShift.apply twoPixelRamp channelShiftDefaults).result.data.val 0 = 4 ∧
    (channelShift.apply twoPixelRamp []).result.data.val 0 ≠
      (channelShift.apply twoPixelRamp channelShiftDefaults).result.data.val 0 := by
  with_unfolding_all decide

/-- A 4×4 bitmap with a distinct color at every pixel: byte `n` holds
`(n/4)*10 + n%4`, so pixel `(x, y)` has red `(y*4 + x)*10`. -/
def distinct4x4 : Bitmap := ⟨4, 4, ⟨64, fun n => (n / 4) * 10 + n % 4⟩⟩

/-- The C5 scenario's parameter map. -/
def offByOneScenarioParams : GlitchParams :=
  [("xOffset", PVal.num 1), ("yOffset", PVal.num 0), ("wrapEdges", PVal.bool true)]

set_option maxRecDepth 100000 in
/-- C5 (code bug): with `xOffset = 1, yOffset = 0, wrapEdges = true` on the
distinct-color 4×4 bitmap, `apply` reads `yOffset` with `|| 1`, so the
supplied 0 — a value inside the declared range — is coalesced to 1: output
pixel (0,0) holds input pixel (1,1)'s red value 50, not input pixel (1,0)'s
red value 10 as the claim requires. -/
theorem offByOne_yOffset_zero_bug :
    (offByOne.apply distinct4x4 offByOneScenarioParams).result.data.val ((0 * 4 + 0) * 4)
      = 50 ∧
    distinct4x4.data.val ((0 * 4 + 1) * 4) = 10 ∧
    distinct4x4.data.val ((1 * 4 + 1) * 4) = 50 ∧
    (offByOne.apply distinct4x4 offByOneScenarioParams).result.data.val ((0 * 4 + 0) * 4)
      ≠ distinct4x4.data.val ((0 * 4 + 1) * 4) := by
  with_unfolding_all decide

/-! ## Claim C9: flipped-axis "Flip Both" coincides with "Rotate 180" -/

/-- C9: for every bitmap and any two parameter maps whose `flipMode`
resolves to "Flip Both" and "Rotate 180" respectively, `flippedAxis.apply`
returns identical results: both modes compute the same source mapping
`srcX = width-1-x`, `srcY = height-1-y`. -/
theorem flippedAxis_flipBoth_eq_rotate180 (img : Bitmap) (p1 p2 : GlitchParams)
    (h1 : getStrOr p1 "flipMode" "Flip Vertical" = "Flip Both")
    (h2 : getStrOr p2 "flipMode" "Flip Vertical" = "Rotate 180") :
    flippedAxis.apply img p1 = flippedAxis.apply img p2 := by
  show flippedAxis_apply img p1 = flippedAxis_apply img p2
  unfold flippedAxis_apply
  rw [h1, h2]
  simp

/-- Witness for C9 at a concrete bitmap and the two singleton maps. -/
theorem flippedAxis_flipBoth_eq_rotate180_witness :
    getStrOr [("flipMode", PVal.str "Flip Both")] "flipMode" "Flip Vertical"
      = "Flip Both" ∧
    getStrOr [("flipMode", PVal.str "Rotate 180")] "flipMode" "Flip Vertical"
      = "Rotate 180" ∧
    flippedAxis.apply ⟨1, 2, ⟨8, fun n => n⟩⟩ [("flipMode", PVal.str "Flip Both")]
      = flippedAxis.apply ⟨1, 2, ⟨8, fun n => n⟩⟩ [("flipMode", PVal.str "Rotate 180")] :=
  ⟨by decide, by decide,
   flippedAxis_flipBoth_eq_rotate180 ⟨1, 2, ⟨8, fun n => n⟩⟩ _ _ (by decide) (by decide)⟩

/-! ## Byte-level characterisation of the write loops -/

/-- Reading at a natural index. -/
lemma Buf.get_nat (b : Buf) (m : ℕ) :
    b.get (m : ℚ) = if m < b.size then (b.val m : ℚ) else 0 := by
  unfold Buf.get
  simp [Rat.den_natCast, Rat.num_natCast]

/-- Writing at a natural index. -/
lemma Buf.set_nat (b : Buf) (m : ℕ) (v : ℚ) :
    b.set (m : ℚ) v =
      if m < b.size then { b with val := Function.update b.val m (u8clamp v) } else b := by
  unfold Buf.set
  simp [Rat.den_natCast, Rat.num_natCast]

/-- The valuation after an in-range store. -/
lemma Buf.val_set_nat (b : Buf) (m : ℕ) (hm : m < b.size) (v : ℚ) (n : ℕ) :
    (b.set (m : ℚ) v).val n = if n = m then u8clamp v else b.val n := by
  rw [Buf.set_nat, if_pos hm]
  simp [Function.update_apply]

/-- `set4` stores `u8clamp v0` at its base index. -/
lemma set4_val_nat_0 (b : Buf) (m : ℕ) (hm : m + 3 < b.size) (v0 v1 v2 v3 : ℚ) :
    (set4 b (m : ℚ) v0 v1 v2 v3).val m = u8clamp v0 := by
  have e1 : (m : ℚ) + 1 = ((m + 1 : ℕ) : ℚ) := by push_cast; ring
  have e2 : (m : ℚ) + 2 = ((m + 2 : ℕ) : ℚ) := by push_cast; ring
  have e3 : (m : ℚ) + 3 = ((m + 3 : ℕ) : ℚ) := by push_cast; ring
  unfold set4
  rw [e1, e2, e3,
    Buf.val_set_nat _ _ (by rw [Buf.set_size, Buf.set_size, Buf.set_size]; omega),
    if_neg (by omega),
    Buf.val_set_nat _ _ (by rw [Buf.set_size, Buf.set_size]; omega),
    if_neg (by omega),
    Buf.val_set_nat _ _ (by rw [Buf.set_size]; omega),
    if_neg (by omega),
    Buf.val_set_nat _ _ (by omega),
    if_pos rfl]

/-- `set4` stores `u8clamp v1` at base+1. -/
lemma set4_val_nat_1 (b : Buf) (m : ℕ) (hm : m + 3 < b.size) (v0 v1 v2 v3 : ℚ) :
    (set4 b (m : ℚ) v0 v1 v2 v3).val (m + 1) = u8clamp v1 := by
  have e1 : (m : ℚ) + 1 = ((m + 1 : ℕ) : ℚ) := by push_cast; ring
  have e2 : (m : ℚ) + 2 = ((m + 2 : ℕ) : ℚ) := by push_cast; ring
  have e3 : (m : ℚ) + 3 = ((m + 3 : ℕ) : ℚ) := by push_cast; ring
  unfold set4
  rw [e1, e2, e3,
    Buf.val_set_nat _ _ (by rw [Buf.set_size, Buf.set_size, Buf.set_size]; omega),
    if_neg (by omega),
    Buf.val_set_nat _ _ (by rw [Buf.set_size, Buf.set_size]; omega),
    if_neg (by omega),
    Buf.val_set_nat _ _ (by rw [Buf.set_size]; omega),
    if_pos rfl]

/-- `set4` stores `u8clamp v2` at base+2. -/
lemma set4_val_nat_2 (b : Buf) (m : ℕ) (hm : m + 3 < b.size) (v0 v1 v2 v3 : ℚ) :
    (set4 b (m : ℚ) v0 v1 v2 v3).val (m + 2) = u8clamp v2 := by
  have e1 : (m : ℚ) + 1 = ((m + 1 : ℕ) : ℚ) := by push_cast; ring
  have e2 : (m : ℚ) + 2 = ((m + 2 : ℕ) : ℚ) := by push_cast; ring
  have e3 : (m : ℚ) + 3 = ((m + 3 : ℕ) : ℚ) := by push_cast; ring
  unfold set4
  rw [e1, e2, e3,
    Buf.val_set_nat _ _ (by rw [Buf.set_size, Buf.set_size, Buf.set_size]; omega),
    if_neg (by omega),
    Buf.val_set_nat _ _ (by rw [Buf.set_size, Buf.set_size]; omega),
    if_pos rfl]

/-- `set4` stores `u8clamp v3` at base+3. -/
lemma set4_val_nat_3 (b : Buf) (m : ℕ) (hm : m + 3 < b.size) (v0 v1 v2 v3 : ℚ) :
    (set4 b (m : ℚ) v0 v1 v2 v3).val (m + 3) = u8clamp v3 := by
  have e1 : (m : ℚ) + 1 = ((m + 1 : ℕ) : ℚ) := by push_cast; ring
  have e2 : (m : ℚ) + 2 = ((m + 2 : ℕ) : ℚ) := by push_cast; ring
  have e3 : (m : ℚ) + 3 = ((m + 3 : ℕ) : ℚ) := by push_cast; ring
  unfold set4
  rw [e1, e2, e3,
    Buf.val_set_nat _ _ (by rw [Buf.set_size, Buf.set_size, Buf.set_size]; omega),
    if_pos rfl]

/-- `set4` leaves every byte outside `[base, base+3]` unchanged. -/
lemma set4_val_nat_ne (b : Buf) (m : ℕ) (v0 v1 v2 v3 : ℚ) (n : ℕ)
    (hn : n < m ∨ m + 3 < n) :
    (set4 b (m : ℚ) v0 v1 v2 v3).val n = b.val n := by
  have e1 : (m : ℚ) + 1 = ((m + 1 : ℕ) : ℚ) := by push_cast; ring
  have e2 : (m : ℚ) + 2 = ((m + 2 : ℕ) : ℚ) := by push_cast; ring
  have e3 : (m : ℚ) + 3 = ((m + 3 : ℕ) : ℚ) := by push_cast; ring
  unfold set4
  rw [e1, e2, e3, Buf.set_nat ((((b.set _ v0).set _ v1).set _ v2)) (m + 3) v3]
  have hval3 : ∀ bb : Buf,
      (if m + 3 < bb.size then
        { bb with val := Function.update bb.val (m + 3) (u8clamp v3) } else bb).val n
      = bb.val n := by
    intro bb
    split
    · simp only [Function.update_apply]
      rw [if_neg (by omega)]
    · rfl
  rw [hval3, Buf.set_nat, Buf.set_nat, Buf.set_nat]
  have step : ∀ (bb : Buf) (mm : ℕ) (vv : ℚ), mm ≠ n →
      (if mm < bb.size then
        { bb with val := Function.update bb.val mm (u8clamp vv) } else bb).val n
      = bb.val n := by
    intro bb mm vv hne
    split
    · simp only [Function.update_apply]
      rw [if_neg (fun hh => hne hh.symm)]
    · rfl
  rw [step _ _ _ (by omega), step _ _ _ (by omega), step _ _ _ (by omega)]

/-- Peeling the last iteration off a `forLoop`. -/
lemma forLoop_succ {α : Type} (f : ℕ → α → α) (n : ℕ) (a : α) :
    forLoop (n + 1) f a = f n (forLoop n f a) := by
  unfold forLoop
  rw [List.range_succ, List.foldl_append]
  rfl

/-- A loop of `set4` writes preserves the buffer size. -/
lemma forLoop_size (F : ℕ → Buf → Buf) (hF : ∀ i bb, (F i bb).size = bb.size)
    (n : ℕ) (b : Buf) : (forLoop n F b).size = b.size :=
  forLoop_inv (fun bb => bb.size = b.size) F (fun i bb h => (hF i bb).trans h) n b rfl

/-- An `St` loop whose body only rewrites the output buffer projects to the
corresponding `Buf` loop. -/
lemma foldl_outP (F : ℕ → Buf → Buf) :
    ∀ (l : List ℕ) (s : St),
      l.foldl (fun a i => { a with out := F i a.out }) s
        = { s with out := l.foldl (fun bb i => F i bb) s.out }
  | [], s => rfl
  | i :: l, s => by
    rw [List.foldl_cons, List.foldl_cons, foldl_outP F l]

/-- `forLoop` version of `foldl_outP`. -/
lemma forLoop_out (n : ℕ) (F : ℕ → Buf → Buf) (s : St) :
    forLoop n (fun i st => { st with out := F i st.out }) s
      = { s with out := forLoop n F s.out } :=
  foldl_outP F (List.range n) s

/-! ## `u8clamp` on in-range integers -/

/-- Storing a byte value returns it unchanged. -/
lemma u8clamp_byte (n : ℕ) (h : n ≤ 255) : u8clamp (n : ℚ) = n := by
  unfold u8clamp
  by_cases h0 : (n : ℚ) ≤ 0
  · have hn : n = 0 := by exact_mod_cast le_antisymm (by exact_mod_cast h0) (Nat.zero_le n)
    subst hn
    simp
  · rw [if_neg h0]
    by_cases h255 : (255 : ℚ) ≤ (n : ℚ)
    · have hn : n = 255 := le_antisymm h (by exact_mod_cast h255)
      subst hn
      simp
    · rw [if_neg h255]
      unfold roundTiesEven
      rw [Int.floor_natCast]
      have hz : (n : ℚ) - ((n : ℤ) : ℚ) = 0 := by push_cast; ring
      simp only [hz]
      rw [if_pos (by norm_num)]
      simp

/-- Storing an integer value in `[0, 255]` returns it unchanged. -/
lemma u8clamp_intCast (i : ℤ) (h0 : 0 ≤ i) (h1 : i ≤ 255) :
    (u8clamp (i : ℚ) : ℤ) = i := by
  have e : (i : ℚ) = ((i.toNat : ℕ) : ℚ) := by
    exact_mod_cast (Int.toNat_of_nonneg h0).symm
  rw [e, u8clamp_byte i.toNat (by omega)]
  omega

/-- Every stored byte is at most 255. -/
lemma u8clamp_le_255 (q : ℚ) : u8clamp q ≤ 255 := by
  unfold u8clamp
  split
  · omega
  · split
    · omega
    · next h0 h255 =>
      have hq : q < 255 := lt_of_not_le h255
      have hf : Int.floor q < 255 := by
        rw [Int.floor_lt]
        exact_mod_cast hq
      unfold roundTiesEven
      dsimp only
      split
      · omega
      · split
        · omega
        · split
          · omega
          · omega

/-! ## Characterisation of the linear per-pixel loop
(`for (i = 0; i < data.length; i += 4)`) -/

/-- After the whole linear loop, pixel `k`'s four bytes hold the clamped
values the iteration computed. -/
lemma linLoop_val (v0 v1 v2 v3 : ℕ → ℚ) (cnt : ℕ) (b0 : Buf) (hb : b0.size = cnt * 4) :
    ∀ m, m ≤ cnt → ∀ k, k < m →
      ((forLoop m (fun k bb =>
          set4 bb ((4 * k : ℕ) : ℚ) (v0 k) (v1 k) (v2 k) (v3 k)) b0).val (4 * k)
          = u8clamp (v0 k) ∧
       (forLoop m (fun k bb =>
          set4 bb ((4 * k : ℕ) : ℚ) (v0 k) (v1 k) (v2 k) (v3 k)) b0).val (4 * k + 1)
          = u8clamp (v1 k) ∧
       (forLoop m (fun k bb =>
          set4 bb ((4 * k : ℕ) : ℚ) (v0 k) (v1 k) (v2 k) (v3 k)) b0).val (4 * k + 2)
          = u8clamp (v2 k) ∧
       (forLoop m (fun k bb =>
          set4 bb ((4 * k : ℕ) : ℚ) (v0 k) (v1 k) (v2 k) (v3 k)) b0).val (4 * k + 3)
          = u8clamp (v3 k)) := by
  intro m
  induction m with
  | zero => intro _ k hk; omega
  | succ m ih =>
    intro hm k hk
    have hsize : (forLoop m (fun k bb =>
        set4 bb ((4 * k : ℕ) : ℚ) (v0 k) (v1 k) (v2 k) (v3 k)) b0).size = cnt * 4 :=
      (forLoop_size _ (fun i bb => set4_size bb _ _ _ _ _) m b0).trans hb
    have hin : 4 * m + 3 < (forLoop m (fun k bb =>
        set4 bb ((4 * k : ℕ) : ℚ) (v0 k) (v1 k) (v2 k) (v3 k)) b0).size := by
      rw [hsize]; omega
    rcases Nat.lt_succ_iff_lt_or_eq.mp hk with hk' | rfl
    · rw [forLoop_succ]
      refine ⟨?_, ?_, ?_, ?_⟩ <;>
        rw [set4_val_nat_ne _ _ _ _ _ _ _ (by omega)]
      · exact (ih (by omega) k hk').1
      · exact (ih (by omega) k hk').2.1
      · exact (ih (by omega) k hk').2.2.1
      · exact (ih (by omega) k hk').2.2.2
    · rw [forLoop_succ]
      refine ⟨?_, ?_, ?_, ?_⟩
      · exact set4_val_nat_0 _ _ hin _ _ _ _
      · exact set4_val_nat_1 _ _ hin _ _ _ _
      · exact set4_val_nat_2 _ _ hin _ _ _ _
      · exact set4_val_nat_3 _ _ hin _ _ _ _

/-- `forLoop_out` in a rewrite-friendly shape for a linear loop of `write4`s
whose indices and values depend only on the counter. -/
lemma forLoop_out_set4 (n : ℕ) (base w0 w1 w2 w3 : ℕ → ℚ) (s : St) :
    forLoop n (fun i st =>
        { st with out := set4 st.out (base i) (w0 i) (w1 i) (w2 i) (w3 i) }) s
      = { s with out :=
          (forLoop n (fun i bb => set4 bb (base i) (w0 i) (w1 i) (w2 i) (w3 i)) s.out) } :=
  forLoop_out n (fun i bb => set4 bb (base i) (w0 i) (w1 i) (w2 i) (w3 i)) s

/-- `forLoop_out` for the nested per-pixel loop of `write4`s. -/
lemma forLoop_out_set4_2 (h w : ℕ) (base w0 w1 w2 w3 : ℕ → ℕ → ℚ) (s : St) :
    forLoop h (fun y st => forLoop w (fun x st =>
        { st with out := set4 st.out (base x y) (w0 x y) (w1 x y) (w2 x y) (w3 x y) }) st) s
      = { s with out :=
          (forLoop h (fun y bb => forLoop w (fun x bb =>
            set4 bb (base x y) (w0 x y) (w1 x y) (w2 x y) (w3 x y)) bb) s.out) } := by
  have inner : ∀ (y : ℕ) (st : St),
      forLoop w (fun x st =>
        { st with out := set4 st.out (base x y) (w0 x y) (w1 x y) (w2 x y) (w3 x y) }) st
      = { st with out :=
          (forLoop w (fun x bb =>
            set4 bb (base x y) (w0 x y) (w1 x y) (w2 x y) (w3 x y)) st.out) } :=
    fun y st => forLoop_out w (fun x bb => set4 bb (base x y) (w0 x y) (w1 x y) (w2 x y) (w3 x y)) st
  calc forLoop h (fun y st => forLoop w (fun x st =>
        { st with out := set4 st.out (base x y) (w0 x y) (w1 x y) (w2 x y) (w3 x y) }) st) s
      = forLoop h (fun y st => { st with out :=
          (forLoop w (fun x bb =>
            set4 bb (base x y) (w0 x y) (w1 x y) (w2 x y) (w3 x y)) st.out) }) s := by
        unfold forLoop
        congr 1
        funext a i
        exact inner i a
    _ = _ := forLoop_out h (fun y bb => forLoop w (fun x bb =>
            set4 bb (base x y) (w0 x y) (w1 x y) (w2 x y) (w3 x y)) bb) s

/-- `(n*256) % 256 = 0` for a natural channel value — the arithmetic behind
the "Simulate 16-bit as 8-bit" mode. -/
lemma jsMod_natMul256 (n : ℕ) : jsMod ((n : ℚ) * 256) 256 = 0 := by
  unfold jsMod jsTruncZ
  rw [if_neg (by norm_num)]
  have hq : ((n : ℚ) * 256) / 256 = (n : ℚ) := by
    field_simp
  rw [hq, if_neg (not_lt.mpr (Nat.cast_nonneg n))]
  rw [Int.floor_natCast]
  push_cast
  ring

/-- Storing 0 keeps 0. -/
lemma u8clamp_zero : u8clamp 0 = 0 := by
  unfold u8clamp
  norm_num

/-! ## Claim C10: bit-depth "Simulate 16-bit as 8-bit" blanks R, G and B -/

/-- C10: for every well-formed bitmap, any parameter map whose `mode`
resolves to "Simulate 16-bit as 8-bit" (the `bits` value is irrelevant) and
any `Math.pow` realisation, every output pixel has R = G = B = 0 — because
`(v*256) % 256 = 0` for every 8-bit integer `v` — and alpha equal to the
input pixel's alpha. -/
theorem bitDepth_simulate16_is_black (pw : ℚ → ℚ → ℚ) (img : Bitmap) (p : GlitchParams)
    (hwf : img.data.size = img.width * img.height * 4)
    (hbytes : ∀ i, i < img.data.size → img.data.val i ≤ 255)
    (hmode : getStrOr p "mode" "Posterize (reduce bits)" = "Simulate 16-bit as 8-bit") :
    ∀ k, k < img.width * img.height →
      ((bitDepth pw).apply img p).result.data.val (4 * k) = 0 ∧
      ((bitDepth pw).apply img p).result.data.val (4 * k + 1) = 0 ∧
      ((bitDepth pw).apply img p).result.data.val (4 * k + 2) = 0 ∧
      ((bitDepth pw).apply img p).result.data.val (4 * k + 3) = img.data.val (4 * k + 3) := by
  intro k hk
  have happly : (bitDepth pw).apply = bitDepth_apply pw := rfl
  rw [happly]
  unfold bitDepth_apply
  rw [hmode]
  dsimp only
  simp only [String.reduceEq, reduceIte]
  simp only [write4]
  rw [forLoop_out_set4]
  dsimp only
  have hcnt : (img.data.size + 3) / 4 = img.width * img.height := by
    rw [hwf]; omega
  rw [hcnt]
  have H := linLoop_val
    (fun k => jsMod (img.data.get ((4 * k : ℕ) : ℚ) * 256) 256)
    (fun k => jsMod (img.data.get (((4 * k : ℕ) : ℚ) + 1) * 256) 256)
    (fun k => jsMod (img.data.get (((4 * k : ℕ) : ℚ) + 2) * 256) 256)
    (fun k => img.data.get (((4 * k : ℕ) : ℚ) + 3))
    (img.width * img.height) (newImageData img.width img.height) rfl
    (img.width * img.height) le_rfl k hk
  have e1 : ((4 * k : ℕ) : ℚ) + 1 = ((4 * k + 1 : ℕ) : ℚ) := by push_cast; ring
  have e2 : ((4 * k : ℕ) : ℚ) + 2 = ((4 * k + 2 : ℕ) : ℚ) := by push_cast; ring
  have e3 : ((4 * k : ℕ) : ℚ) + 3 = ((4 * k + 3 : ℕ) : ℚ) := by push_cast; ring
  have hv0 : u8clamp (jsMod (img.data.get ((4 * k : ℕ) : ℚ) * 256) 256) = 0 := by
    rw [Buf.get_nat, if_pos (by rw [hwf]; omega), jsMod_natMul256, u8clamp_zero]
  have hv1 : u8clamp (jsMod (img.data.get (((4 * k : ℕ) : ℚ) + 1) * 256) 256) = 0 := by
    rw [e1, Buf.get_nat, if_pos (by rw [hwf]; omega), jsMod_natMul256, u8clamp_zero]
  have hv2 : u8clamp (jsMod (img.data.get (((4 * k : ℕ) : ℚ) + 2) * 256) 256) = 0 := by
    rw [e2, Buf.get_nat, if_pos (by rw [hwf]; omega), jsMod_natMul256, u8clamp_zero]
  have hv3 : u8clamp (img.data.get (((4 * k : ℕ) : ℚ) + 3)) = img.data.val (4 * k + 3) := by
    rw [e3, Buf.get_nat, if_pos (by rw [hwf]; omega)]
    exact u8clamp_byte _ (hbytes _ (by rw [hwf]; omega))
  exact ⟨H.1.trans hv0, H.2.1.trans hv1, H.2.2.1.trans hv2, H.2.2.2.trans hv3⟩

/-- Witness for C10 at a concrete bitmap and parameter map. -/
theorem bitDepth_simulate16_is_black_witness :
    ((⟨1, 1, ⟨4, fun _ => 200⟩⟩ : Bitmap).data.size = 1 * 1 * 4) ∧
    (getStrOr [("mode", PVal.str "Simulate 16-bit as 8-bit")] "mode"
      "Posterize (reduce bits)" = "Simulate 16-bit as 8-bit") ∧
    ((bitDepth (fun _ _ => 0)).apply ⟨1, 1, ⟨4, fun _ => 200⟩⟩
        [("mode", PVal.str "Simulate 16-bit as 8-bit")]).result.data.val 0 = 0 ∧
    ((bitDepth (fun _ _ => 0)).apply ⟨1, 1, ⟨4, fun _ => 200⟩⟩
        [("mode", PVal.str "Simulate 16-bit as 8-bit")]).result.data.val (4 * 0 + 3) = (⟨1, 1, ⟨4, fun _ => 200⟩⟩ : Bitmap).data.val (4 * 0 + 3) := by
  refine ⟨rfl, by decide, ?_, ?_⟩
  · exact (bitDepth_simulate16_is_black (fun _ _ => 0) ⟨1, 1, ⟨4, fun _ => 200⟩⟩
      [("mode", PVal.str "Simulate 16-bit as 8-bit")] rfl (by intro i _; show (200:ℕ) ≤ 255; decide)
      (by decide) 0 (by decide)).1
  · exact (bitDepth_simulate16_is_black (fun _ _ => 0) ⟨1, 1, ⟨4, fun _ => 200⟩⟩
      [("mode", PVal.str "Simulate 16-bit as 8-bit")] rfl (by intro i _; show (200:ℕ) ≤ 255; decide)
      (by decide) 0 (by decide)).2.2.2

/-! ## Characterisation of the nested per-pixel loop
(`for y { for x { ... } }`) -/

/-- After the row loop for row `y`, pixel `(x, y)`'s bytes hold the clamped
values. -/
lemma rowLoop_val_lt (W H : ℕ) (y : ℕ) (hy : y < H) (v0 v1 v2 v3 : ℕ → ℕ → ℚ) :
    ∀ (m : ℕ), m ≤ W → ∀ (b : Buf), b.size = W * H * 4 → ∀ x, x < m →
      ((forLoop m (fun x bb => set4 bb (((y * W + x) * 4 : ℕ) : ℚ)
          (v0 x y) (v1 x y) (v2 x y) (v3 x y)) b).val ((y * W + x) * 4)
          = u8clamp (v0 x y) ∧
       (forLoop m (fun x bb => set4 bb (((y * W + x) * 4 : ℕ) : ℚ)
          (v0 x y) (v1 x y) (v2 x y) (v3 x y)) b).val ((y * W + x) * 4 + 1)
          = u8clamp (v1 x y) ∧
       (forLoop m (fun x bb => set4 bb (((y * W + x) * 4 : ℕ) : ℚ)
          (v0 x y) (v1 x y) (v2 x y) (v3 x y)) b).val ((y * W + x) * 4 + 2)
          = u8clamp (v2 x y) ∧
       (forLoop m (fun x bb => set4 bb (((y * W + x) * 4 : ℕ) : ℚ)
          (v0 x y) (v1 x y) (v2 x y) (v3 x y)) b).val ((y * W + x) * 4 + 3)
          = u8clamp (v3 x y)) := by
  intro m
  induction m with
  | zero => intro _ b _ x hx; omega
  | succ m ih =>
    intro hm b hb x hx
    have hsize : (forLoop m (fun x bb => set4 bb (((y * W + x) * 4 : ℕ) : ℚ)
        (v0 x y) (v1 x y) (v2 x y) (v3 x y)) b).size = W * H * 4 :=
      (forLoop_size _ (fun i bb => set4_size bb _ _ _ _ _) m b).trans hb
    have hyW : (y + 1) * W = y * W + W := by ring
    have hmul : (y + 1) * W ≤ H * W := Nat.mul_le_mul_right W (by omega)
    have hWH : W * H = H * W := Nat.mul_comm W H
    have hin : (y * W + m) * 4 + 3 < (forLoop m (fun x bb =>
        set4 bb (((y * W + x) * 4 : ℕ) : ℚ)
        (v0 x y) (v1 x y) (v2 x y) (v3 x y)) b).size := by
      rw [hsize]; omega
    rcases Nat.lt_succ_iff_lt_or_eq.mp hx with hx' | rfl
    · rw [forLoop_succ]
      refine ⟨?_, ?_, ?_, ?_⟩ <;>
        rw [set4_val_nat_ne _ _ _ _ _ _ _ (by omega)]
      · exact (ih (by omega) b hb x hx').1
      · exact (ih (by omega) b hb x hx').2.1
      · exact (ih (by omega) b hb x hx').2.2.1
      · exact (ih (by omega) b hb x hx').2.2.2
    · rw [forLoop_succ]
      refine ⟨?_, ?_, ?_, ?_⟩
      · exact set4_val_nat_0 _ _ hin _ _ _ _
      · exact set4_val_nat_1 _ _ hin _ _ _ _
      · exact set4_val_nat_2 _ _ hin _ _ _ _
      · exact set4_val_nat_3 _ _ hin _ _ _ _

/-- The row loop for row `y` does not touch bytes outside row `y`'s range. -/
lemma rowLoop_val_out (W : ℕ) (y : ℕ) (v0 v1 v2 v3 : ℕ → ℕ → ℚ) :
    ∀ (m : ℕ) (b : Buf) (n : ℕ), n < y * W * 4 ∨ (y * W + m) * 4 ≤ n →
      (forLoop m (fun x bb => set4 bb (((y * W + x) * 4 : ℕ) : ℚ)
          (v0 x y) (v1 x y) (v2 x y) (v3 x y)) b).val n = b.val n := by
  intro m
  induction m with
  | zero => intro b n _; rfl
  | succ m ih =>
    intro b n hn
    rw [forLoop_succ, set4_val_nat_ne _ _ _ _ _ _ _ (by omega)]
    exact ih b n (by omega)

/-- After the whole nested loop, pixel `(x, y)`'s four bytes hold the
clamped values the iteration `(x, y)` computed. -/
lemma gridLoop_val (W H : ℕ) (v0 v1 v2 v3 : ℕ → ℕ → ℚ) :
    ∀ (m : ℕ), m ≤ H → ∀ (b : Buf), b.size = W * H * 4 → ∀ x, x < W → ∀ y, y < m →
      ((forLoop m (fun y bb => forLoop W (fun x bb =>
          set4 bb (((y * W + x) * 4 : ℕ) : ℚ)
          (v0 x y) (v1 x y) (v2 x y) (v3 x y)) bb) b).val ((y * W + x) * 4)
          = u8clamp (v0 x y) ∧
       (forLoop m (fun y bb => forLoop W (fun x bb =>
          set4 bb (((y * W + x) * 4 : ℕ) : ℚ)
          (v0 x y) (v1 x y) (v2 x y) (v3 x y)) bb) b).val ((y * W + x) * 4 + 1)
          = u8clamp (v1 x y) ∧
       (forLoop m (fun y bb => forLoop W (fun x bb =>
          set4 bb (((y * W + x) * 4 : ℕ) : ℚ)
          (v0 x y) (v1 x y) (v2 x y) (v3 x y)) bb) b).val ((y * W + x) * 4 + 2)
          = u8clamp (v2 x y) ∧
       (forLoop m (fun y bb => forLoop W (fun x bb =>
          set4 bb (((y * W + x) * 4 : ℕ) : ℚ)
          (v0 x y) (v1 x y) (v2 x y) (v3 x y)) bb) b).val ((y * W + x) * 4 + 3)
          = u8clamp (v3 x y)) := by
  intro m
  induction m with
  | zero => intro _ b _ x _ y hy; omega
  | succ m ih =>
    intro hm b hb x hx y hy
    have hsize : (forLoop m (fun y bb => forLoop W (fun x bb =>
        set4 bb (((y * W + x) * 4 : ℕ) : ℚ)
        (v0 x y) (v1 x y) (v2 x y) (v3 x y)) bb) b).size = W * H * 4 :=
      (forLoop_size _ (fun i bb =>
        forLoop_size _ (fun j cc => set4_size cc _ _ _ _ _) W bb) m b).trans hb
    rcases Nat.lt_succ_iff_lt_or_eq.mp hy with hy' | rfl
    · rw [forLoop_succ]
      have hyW : (y + 1) * W = y * W + W := by ring
      have hmmul : (y + 1) * W ≤ m * W := Nat.mul_le_mul_right W (by omega)
      refine ⟨?_, ?_, ?_, ?_⟩ <;>
        rw [rowLoop_val_out W m v0 v1 v2 v3 W _ _ (by omega)]
      · exact (ih (by omega) b hb x hx y hy').1
      · exact (ih (by omega) b hb x hx y hy').2.1
      · exact (ih (by omega) b hb x hx y hy').2.2.1
      · exact (ih (by omega) b hb x hx y hy').2.2.2
    · rw [forLoop_succ]
      exact rowLoop_val_lt W H y (by omega) v0 v1 v2 v3 W le_rfl _ hsize x hx

/-! ## Claim C6: "Flip Both" applied twice is the identity -/

/-- Cast normalisation for the per-pixel write base. -/
lemma gridLoop_cast (W H : ℕ) (v0 v1 v2 v3 : ℕ → ℕ → ℚ) (b : Buf) :
    forLoop H (fun y bb => forLoop W (fun x bb =>
        set4 bb (((y : ℚ) * W + x) * 4) (v0 x y) (v1 x y) (v2 x y) (v3 x y)) bb) b
      = forLoop H (fun y bb => forLoop W (fun x bb =>
        set4 bb (((y * W + x) * 4 : ℕ) : ℚ) (v0 x y) (v1 x y) (v2 x y) (v3 x y)) bb) b := by
  congr 1
  funext y bb
  congr 1
  funext x cc
  have e : ((y : ℚ) * W + x) * 4 = (((y * W + x) * 4 : ℕ) : ℚ) := by push_cast; ring
  rw [e]

/-- One application of flipped-axis "Flip Both": output pixel `(x, y)` holds
input pixel `(width-1-x, height-1-y)`, byte for byte. -/
lemma flipBoth_val (img : Bitmap) (p : GlitchParams)
    (hwf : img.data.size = img.width * img.height * 4)
    (hbytes : ∀ i, i < img.data.size → img.data.val i ≤ 255)
    (hmode : getStrOr p "flipMode" "Flip Vertical" = "Flip Both") :
    ∀ x, x < img.width → ∀ y, y < img.height → ∀ c, c < 4 →
      (flippedAxis.apply img p).result.data.val ((y * img.width + x) * 4 + c)
        = img.data.val
            (((img.height - 1 - y) * img.width + (img.width - 1 - x)) * 4 + c) := by
  intro x hx y hy c hc
  have happly : flippedAxis.apply = flippedAxis_apply := rfl
  rw [happly]
  unfold flippedAxis_apply
  rw [hmode]
  dsimp only
  simp only [String.reduceEq, reduceIte]
  simp only [write4]
  rw [forLoop_out_set4_2]
  dsimp only
  rw [gridLoop_cast]
  have H := gridLoop_val img.width img.height
    (fun x y => img.data.get ((((img.height : ℚ) - 1 - y) * img.width +
      ((img.width : ℚ) - 1 - x)) * 4))
    (fun x y => img.data.get ((((img.height : ℚ) - 1 - y) * img.width +
      ((img.width : ℚ) - 1 - x)) * 4 + 1))
    (fun x y => img.data.get ((((img.height : ℚ) - 1 - y) * img.width +
      ((img.width : ℚ) - 1 - x)) * 4 + 2))
    (fun x y => img.data.get ((((img.height : ℚ) - 1 - y) * img.width +
      ((img.width : ℚ) - 1 - x)) * 4 + 3))
    img.height le_rfl (newImageData img.width img.height) rfl x hx y hy
  simp only [] at H
  have eh : ((img.height - 1 - y : ℕ) : ℚ) = (img.height : ℚ) - 1 - (y : ℚ) := by
    rw [Nat.cast_sub (by omega), Nat.cast_sub (by omega)]
    push_cast
    ring
  have ew : ((img.width - 1 - x : ℕ) : ℚ) = (img.width : ℚ) - 1 - (x : ℚ) := by
    rw [Nat.cast_sub (by omega), Nat.cast_sub (by omega)]
    push_cast
    ring
  have hsrc : (img.height - 1 - y) * img.width + (img.width - 1 - x)
      < img.width * img.height := by
    have h1 : img.height - 1 - y ≤ img.height - 1 := by omega
    have h2 : (img.height - 1 - y) * img.width ≤ (img.height - 1) * img.width :=
      Nat.mul_le_mul_right _ h1
    have h3 : (img.height - 1) * img.width + img.width = img.height * img.width := by
      have h4 : img.height - 1 + 1 = img.height := by omega
      calc (img.height - 1) * img.width + img.width
          = (img.height - 1 + 1) * img.width := by ring
        _ = img.height * img.width := by rw [h4]
    have h5 : img.width * img.height = img.height * img.width := Nat.mul_comm _ _
    omega
  have hidx : ∀ cc : ℕ, cc < 4 →
      ((img.height - 1 - y) * img.width + (img.width - 1 - x)) * 4 + cc
        < img.data.size := by
    intro cc hcc
    rw [hwf]
    omega
  have hget : ∀ cc : ℕ, cc < 4 →
      img.data.get (((((img.height - 1 - y) * img.width + (img.width - 1 - x)) * 4
          + cc : ℕ) : ℚ))
        = ((img.data.val (((img.height - 1 - y) * img.width + (img.width - 1 - x)) * 4
          + cc) : ℕ) : ℚ) := by
    intro cc hcc
    rw [Buf.get_nat, if_pos (hidx cc hcc)]
  have hb : ∀ cc : ℕ, cc < 4 →
      u8clamp ((img.data.val (((img.height - 1 - y) * img.width
          + (img.width - 1 - x)) * 4 + cc) : ℕ) : ℚ)
        = img.data.val (((img.height - 1 - y) * img.width
          + (img.width - 1 - x)) * 4 + cc) :=
    fun cc hcc => u8clamp_byte _ (hbytes _ (hidx cc hcc))
  have e0 : (((img.height : ℚ) - 1 - y) * img.width + ((img.width : ℚ) - 1 - x)) * 4
      = (((((img.height - 1 - y) * img.width + (img.width - 1 - x)) * 4 + 0 : ℕ)) : ℚ) := by
    rw [← eh, ← ew]
    push_cast
    ring
  have e1 : (((img.height : ℚ) - 1 - y) * img.width + ((img.width : ℚ) - 1 - x)) * 4 + 1
      = (((((img.height - 1 - y) * img.width + (img.width - 1 - x)) * 4 + 1 : ℕ)) : ℚ) := by
    rw [← eh, ← ew]
    push_cast
    ring
  have e2 : (((img.height : ℚ) - 1 - y) * img.width + ((img.width : ℚ) - 1 - x)) * 4 + 2
      = (((((img.height - 1 - y) * img.width + (img.width - 1 - x)) * 4 + 2 : ℕ)) : ℚ) := by
    rw [← eh, ← ew]
    push_cast
    ring
  have e3 : (((img.height : ℚ) - 1 - y) * img.width + ((img.width : ℚ) - 1 - x)) * 4 + 3
      = (((((img.height - 1 - y) * img.width + (img.width - 1 - x)) * 4 + 3 : ℕ)) : ℚ) := by
    rw [← eh, ← ew]
    push_cast
    ring
  interval_cases c
  · refine H.1.trans ?_
    rw [e0, hget 0 (by omega)]
    exact hb 0 (by omega)
  · refine H.2.1.trans ?_
    rw [e1, hget 1 (by omega)]
    exact hb 1 (by omega)
  · refine H.2.2.1.trans ?_
    rw [e2, hget 2 (by omega)]
    exact hb 2 (by omega)
  · refine H.2.2.2.trans ?_
    rw [e3, hget 3 (by omega)]
    exact hb 3 (by omega)

/-- Every byte index of a `W × H` RGBA buffer decomposes into pixel
coordinates and a channel. -/
lemma byte_decomp (W H n : ℕ) (hn : n < W * H * 4) :
    ∃ x y c, x < W ∧ y < H ∧ c < 4 ∧ n = (y * W + x) * 4 + c := by
  have hW : 0 < W := by
    rcases Nat.eq_zero_or_pos W with h | h
    · subst h; simp at hn
    · exact h
  have h4 : n / 4 < W * H := by
    apply Nat.div_lt_of_lt_mul
    have h5 : 4 * (W * H) = W * H * 4 := by ring
    omega
  refine ⟨(n / 4) % W, (n / 4) / W, n % 4, Nat.mod_lt _ hW, ?_, Nat.mod_lt _ (by norm_num), ?_⟩
  · exact Nat.div_lt_of_lt_mul h4
  · have e1 : W * ((n / 4) / W) + (n / 4) % W = n / 4 := Nat.div_add_mod _ _
    have e2 : (n / 4) / W * W = W * ((n / 4) / W) := Nat.mul_comm _ _
    have e3 : n / 4 * 4 + n % 4 = n := by omega
    calc n = n / 4 * 4 + n % 4 := e3.symm
      _ = (W * ((n / 4) / W) + (n / 4) % W) * 4 + n % 4 := by rw [e1]
      _ = ((n / 4) / W * W + (n / 4) % W) * 4 + n % 4 := by rw [e2]

/-- The flipped source byte index stays inside the buffer. -/
lemma flip_src_lt (W H x y c : ℕ) (hx : x < W) (hy : y < H) (hc : c < 4) :
    ((H - 1 - y) * W + (W - 1 - x)) * 4 + c < W * H * 4 := by
  have h1 : H - 1 - y ≤ H - 1 := by omega
  have h2 : (H - 1 - y) * W ≤ (H - 1) * W := Nat.mul_le_mul_right _ h1
  have h3 : (H - 1) * W + W = H * W := by
    have h4 : H - 1 + 1 = H := by omega
    calc (H - 1) * W + W = (H - 1 + 1) * W := by ring
      _ = H * W := by rw [h4]
  have h5 : W * H = H * W := Nat.mul_comm _ _
  omega

/-- C6: on every well-formed bitmap with even width and even height,
applying flipped-axis "Flip Both" twice returns a bitmap whose pixel bytes
equal the original input's bytes exactly.  (The proof does not even need the
evenness hypotheses: the flip mapping is an involution on any grid.) -/
theorem flippedAxis_flipBoth_involutive (img : Bitmap) (p : GlitchParams)
    (hwf : img.data.size = img.width * img.height * 4)
    (hbytes : ∀ i, i < img.data.size → img.data.val i ≤ 255)
    (hevenW : 2 ∣ img.width) (hevenH : 2 ∣ img.height)
    (hmode : getStrOr p "flipMode" "Flip Vertical" = "Flip Both") :
    (flippedAxis.apply (flippedAxis.apply img p).result p).result.data.size
      = img.data.size ∧
    ∀ n, n < img.data.size →
      (flippedAxis.apply (flippedAxis.apply img p).result p).result.data.val n
        = img.data.val n := by
  have happly : flippedAxis_apply = flippedAxis.apply := rfl
  obtain ⟨hres1, hok1⟩ := good_flippedAxis img p
  rw [happly] at hres1 hok1
  have h1size : (flippedAxis.apply img p).result.data.size
      = img.width * img.height * 4 := by rw [hres1]; exact hok1.2
  have h1w : (flippedAxis.apply img p).result.width = img.width := by rw [hres1]
  have h1h : (flippedAxis.apply img p).result.height = img.height := by rw [hres1]
  have h1val := flipBoth_val img p hwf hbytes hmode
  have h1bytes : ∀ i, i < (flippedAxis.apply img p).result.data.size →
      (flippedAxis.apply img p).result.data.val i ≤ 255 := by
    intro i hi
    rw [h1size] at hi
    obtain ⟨x, y, c, hx, hy, hc, rfl⟩ := byte_decomp _ _ _ hi
    rw [h1val x hx y hy c hc]
    exact hbytes _ (by rw [hwf]; exact flip_src_lt _ _ _ _ _ hx hy hc)
  have h1wf : (flippedAxis.apply img p).result.data.size
      = (flippedAxis.apply img p).result.width
        * (flippedAxis.apply img p).result.height * 4 := by
    rw [h1size, h1w, h1h]
  have h2val := flipBoth_val (flippedAxis.apply img p).result p h1wf h1bytes hmode
  rw [h1w, h1h] at h2val
  obtain ⟨hres2, hok2⟩ := good_flippedAxis (flippedAxis.apply img p).result p
  rw [happly] at hres2 hok2
  constructor
  · rw [hres2]
    rw [hok2.2, h1w, h1h, hwf]
  · intro n hn
    rw [hwf] at hn
    obtain ⟨x, y, c, hx, hy, hc, rfl⟩ := byte_decomp _ _ _ hn
    rw [h2val x hx y hy c hc]
    have hx' : img.width - 1 - x < img.width := by omega
    have hy' : img.height - 1 - y < img.height := by omega
    rw [h1val (img.width - 1 - x) hx' (img.height - 1 - y) hy' c hc]
    have ex : img.width - 1 - (img.width - 1 - x) = x := by omega
    have ey : img.height - 1 - (img.height - 1 - y) = y := by omega
    rw [ex, ey]

/-- Witness for C6 at a concrete 2×2 bitmap. -/
theorem flippedAxis_flipBoth_involutive_witness :
    ((⟨2, 2, ⟨16, fun n => n * 3⟩⟩ : Bitmap).data.size = 2 * 2 * 4) ∧
    (2 ∣ 2) ∧
    (flippedAxis.apply
      (flippedAxis.apply ⟨2, 2, ⟨16, fun n => n * 3⟩⟩
        [("flipMode", PVal.str "Flip Both")]).result
      [("flipMode", PVal.str "Flip Both")]).result.data.val 5
      = (⟨2, 2, ⟨16, fun n => n * 3⟩⟩ : Bitmap).data.val 5 := by
  refine ⟨rfl, ⟨1, rfl⟩, ?_⟩
  exact (flippedAxis_flipBoth_involutive ⟨2, 2, ⟨16, fun n => n * 3⟩⟩
    [("flipMode", PVal.str "Flip Both")] rfl
    (by intro i hi; have h16 : i < 16 := hi; show i * 3 ≤ 255; omega)
    ⟨1, rfl⟩ ⟨1, rfl⟩ (by decide)).2 5 (by decide)

/-! ## Claim C7: the first mip level is the rounded box average -/

/-- The channel value of pixel `(x, y)` in a `W`-wide RGBA buffer, as a JS
number. -/
def pixVal (d : Buf) (W x y cc : ℕ) : ℚ := (d.val ((y * W + x) * 4 + cc) : ℚ)

/-- Storing a rounded value from `[0, 255]` keeps it. -/
lemma u8clamp_jsRound (q : ℚ) (h0 : 0 ≤ q) (h1 : q ≤ 255) :
    ((u8clamp (jsRound q) : ℕ) : ℚ) = jsRound q := by
  unfold jsRound
  have hz0 : (0 : ℤ) ≤ Int.floor (q + 1/2) := by
    rw [Int.le_floor]
    push_cast
    linarith
  have hz1 : Int.floor (q + 1/2) ≤ 255 := by
    have hlt : q + 1/2 < ((256 : ℤ) : ℚ) := by push_cast; linarith
    have := Int.floor_lt.mpr hlt
    omega
  have h := u8clamp_intCast (Int.floor (q + 1/2)) hz0 hz1
  exact_mod_cast h

/-- On a 4×4 level, every 2×2 box of the first downsample is fully inside
the image, so the accumulator sums exactly the four taps. -/
lemma boxAcc_4x4 (prev : Buf) (qx qy : ℕ) (hqx : qx < 2) (hqy : qy < 2) :
    boxAcc prev 4 4 (qx * 2) (qy * 2) =
      { r := 0 + prev.get ((((qy * 2 + 0 : ℕ) : ℚ) * ((4:ℕ) : ℚ) + ((qx * 2 + 0 : ℕ) : ℚ)) * 4)
             + prev.get ((((qy * 2 + 0 : ℕ) : ℚ) * ((4:ℕ) : ℚ) + ((qx * 2 + 1 : ℕ) : ℚ)) * 4)
             + prev.get ((((qy * 2 + 1 : ℕ) : ℚ) * ((4:ℕ) : ℚ) + ((qx * 2 + 0 : ℕ) : ℚ)) * 4)
             + prev.get ((((qy * 2 + 1 : ℕ) : ℚ) * ((4:ℕ) : ℚ) + ((qx * 2 + 1 : ℕ) : ℚ)) * 4),
        g := 0 + prev.get (((((qy * 2 + 0 : ℕ) : ℚ) * ((4:ℕ) : ℚ) + ((qx * 2 + 0 : ℕ) : ℚ)) * 4) + 1)
             + prev.get (((((qy * 2 + 0 : ℕ) : ℚ) * ((4:ℕ) : ℚ) + ((qx * 2 + 1 : ℕ) : ℚ)) * 4) + 1)
             + prev.get (((((qy * 2 + 1 : ℕ) : ℚ) * ((4:ℕ) : ℚ) + ((qx * 2 + 0 : ℕ) : ℚ)) * 4) + 1)
             + prev.get (((((qy * 2 + 1 : ℕ) : ℚ) * ((4:ℕ) : ℚ) + ((qx * 2 + 1 : ℕ) : ℚ)) * 4) + 1),
        b := 0 + prev.get (((((qy * 2 + 0 : ℕ) : ℚ) * ((4:ℕ) : ℚ) + ((qx * 2 + 0 : ℕ) : ℚ)) * 4) + 2)
             + prev.get (((((qy * 2 + 0 : ℕ) : ℚ) * ((4:ℕ) : ℚ) + ((qx * 2 + 1 : ℕ) : ℚ)) * 4) + 2)
             + prev.get (((((qy * 2 + 1 : ℕ) : ℚ) * ((4:ℕ) : ℚ) + ((qx * 2 + 0 : ℕ) : ℚ)) * 4) + 2)
             + prev.get (((((qy * 2 + 1 : ℕ) : ℚ) * ((4:ℕ) : ℚ) + ((qx * 2 + 1 : ℕ) : ℚ)) * 4) + 2),
        a := 0 + prev.get (((((qy * 2 + 0 : ℕ) : ℚ) * ((4:ℕ) : ℚ) + ((qx * 2 + 0 : ℕ) : ℚ)) * 4) + 3)
             + prev.get (((((qy * 2 + 0 : ℕ) : ℚ) * ((4:ℕ) : ℚ) + ((qx * 2 + 1 : ℕ) : ℚ)) * 4) + 3)
             + prev.get (((((qy * 2 + 1 : ℕ) : ℚ) * ((4:ℕ) : ℚ) + ((qx * 2 + 0 : ℕ) : ℚ)) * 4) + 3)
             + prev.get (((((qy * 2 + 1 : ℕ) : ℚ) * ((4:ℕ) : ℚ) + ((qx * 2 + 1 : ℕ) : ℚ)) * 4) + 3),
        count := 0 + 1 + 1 + 1 + 1 } := by
  unfold boxAcc forLoop
  have hr : List.range 2 = [0, 1] := rfl
  rw [hr]
  simp only [List.foldl_cons, List.foldl_nil]
  split_ifs <;> first | rfl | omega

/-- C7: on a 4×4 bitmap made of four uniform 2×2 quadrants, the first
downsampled mip level built by the mipmap transform's box filter is 2×2 and
each of its pixels, in each channel, is the rounded average of the four
corresponding source samples.  `downsampleMip`/`boxAcc` are the very
functions `mipmap.apply` uses to build its chain, and the chain's level 1 is
exactly this downsample (third conjunct). -/
theorem mipmap_first_level_box_average (d : Buf) (hsize : d.size = 64)
    (hbytes : ∀ i, i < 64 → d.val i ≤ 255)
    (hq : ∀ x, x < 4 → ∀ y, y < 4 → ∀ cc, cc < 4 →
      d.val ((y * 4 + x) * 4 + cc) = d.val ((2 * (y / 2) * 4 + 2 * (x / 2)) * 4 + cc)) :
    (downsampleMip d 4 4).1 = 2 ∧ (downsampleMip d 4 4).2.1 = 2 ∧
    (buildMips 9 [(4, 4, d)] d 4 4).getD 1 (0, 0, ⟨0, fun _ => 0⟩)
      = downsampleMip d 4 4 ∧
    ∀ qx, qx < 2 → ∀ qy, qy < 2 → ∀ c, c < 4 →
      (((downsampleMip d 4 4).2.2).val ((qy * 2 + qx) * 4 + c) : ℚ)
        = jsRound ((pixVal d 4 (qx * 2) (qy * 2) c + pixVal d 4 (qx * 2 + 1) (qy * 2) c
            + pixVal d 4 (qx * 2) (qy * 2 + 1) c
            + pixVal d 4 (qx * 2 + 1) (qy * 2 + 1) c) / 4) := by
  refine ⟨rfl, rfl, by with_unfolding_all rfl, ?_⟩
  intro qx hqx qy hqy c hc
  unfold downsampleMip
  dsimp only
  rw [show (max 1 (4 / 2) : ℕ) = 2 from rfl]
  rw [gridLoop_cast]
  have H := gridLoop_val 2 2
    (fun x y => jsRound ((boxAcc d 4 4 (x * 2) (y * 2)).r / (boxAcc d 4 4 (x * 2) (y * 2)).count))
    (fun x y => jsRound ((boxAcc d 4 4 (x * 2) (y * 2)).g / (boxAcc d 4 4 (x * 2) (y * 2)).count))
    (fun x y => jsRound ((boxAcc d 4 4 (x * 2) (y * 2)).b / (boxAcc d 4 4 (x * 2) (y * 2)).count))
    (fun x y => jsRound ((boxAcc d 4 4 (x * 2) (y * 2)).a / (boxAcc d 4 4 (x * 2) (y * 2)).count))
    2 le_rfl (newImageData 2 2) rfl qx hqx qy hqy
  simp only [] at H
  have hget : ∀ dx dy : ℕ, dx < 2 → dy < 2 →
      d.get ((((qy * 2 + dy : ℕ) : ℚ) * ((4:ℕ) : ℚ) + ((qx * 2 + dx : ℕ) : ℚ)) * 4)
        = ((d.val (((qy * 2 + dy) * 4 + (qx * 2 + dx)) * 4) : ℕ) : ℚ) := by
    intro dx dy hdx hdy
    have e : (((qy * 2 + dy : ℕ) : ℚ) * ((4:ℕ) : ℚ) + ((qx * 2 + dx : ℕ) : ℚ)) * 4
        = ((((qy * 2 + dy) * 4 + (qx * 2 + dx)) * 4 : ℕ) : ℚ) := by push_cast; ring
    rw [e, Buf.get_nat, if_pos (by rw [hsize]; omega)]
  have hgetc : ∀ dx dy cn : ℕ, ∀ cq : ℚ, cq = (cn : ℚ) → dx < 2 → dy < 2 → cn < 4 →
      d.get (((((qy * 2 + dy : ℕ) : ℚ) * ((4:ℕ) : ℚ) + ((qx * 2 + dx : ℕ) : ℚ)) * 4) + cq)
        = ((d.val (((qy * 2 + dy) * 4 + (qx * 2 + dx)) * 4 + cn) : ℕ) : ℚ) := by
    intro dx dy cn cq hcq hdx hdy hcn
    subst hcq
    have e : ((((qy * 2 + dy : ℕ) : ℚ) * ((4:ℕ) : ℚ) + ((qx * 2 + dx : ℕ) : ℚ)) * 4) + (cn : ℚ)
        = ((((qy * 2 + dy) * 4 + (qx * 2 + dx)) * 4 + cn : ℕ) : ℚ) := by push_cast; ring
    rw [e, Buf.get_nat, if_pos (by rw [hsize]; omega)]
  have hvb : ∀ j : ℕ, j < 64 → (0 : ℚ) ≤ (d.val j : ℚ) ∧ (d.val j : ℚ) ≤ 255 := by
    intro j hj
    constructor
    · exact Nat.cast_nonneg _
    · exact_mod_cast hbytes j hj
  have hcnt : ((0:ℚ) + 1 + 1 + 1 + 1) = 4 := by norm_num
  interval_cases c
  · simp only [Nat.add_zero]
    rw [H.1, boxAcc_4x4 d qx qy hqx hqy]
    dsimp only
    rw [hget 0 0 (by omega) (by omega), hget 1 0 (by omega) (by omega),
        hget 0 1 (by omega) (by omega), hget 1 1 (by omega) (by omega), hcnt]
    obtain ⟨n00a, n00b⟩ := hvb (((qy * 2 + 0) * 4 + (qx * 2 + 0)) * 4) (by omega)
    obtain ⟨n10a, n10b⟩ := hvb (((qy * 2 + 0) * 4 + (qx * 2 + 1)) * 4) (by omega)
    obtain ⟨n01a, n01b⟩ := hvb (((qy * 2 + 1) * 4 + (qx * 2 + 0)) * 4) (by omega)
    obtain ⟨n11a, n11b⟩ := hvb (((qy * 2 + 1) * 4 + (qx * 2 + 1)) * 4) (by omega)
    rw [u8clamp_jsRound _ (by positivity) (by linarith)]
    unfold pixVal
    have i00 : ((qy * 2 + 0) * 4 + (qx * 2 + 0)) * 4 = (qy * 2 * 4 + qx * 2) * 4 + 0 := by ring
    have i10 : ((qy * 2 + 0) * 4 + (qx * 2 + 1)) * 4 = (qy * 2 * 4 + (qx * 2 + 1)) * 4 + 0 := by
      ring
    have i01 : ((qy * 2 + 1) * 4 + (qx * 2 + 0)) * 4 = ((qy * 2 + 1) * 4 + qx * 2) * 4 + 0 := by
      ring
    have i11 : ((qy * 2 + 1) * 4 + (qx * 2 + 1)) * 4
        = ((qy * 2 + 1) * 4 + (qx * 2 + 1)) * 4 + 0 := by ring
    rw [i00, i10, i01, i11]
    congr 1
    ring
  · rw [H.2.1, boxAcc_4x4 d qx qy hqx hqy]
    dsimp only
    rw [hgetc 0 0 1 1 (by norm_num) (by omega) (by omega) (by omega),
        hgetc 1 0 1 1 (by norm_num) (by omega) (by omega) (by omega),
        hgetc 0 1 1 1 (by norm_num) (by omega) (by omega) (by omega),
        hgetc 1 1 1 1 (by norm_num) (by omega) (by omega) (by omega),
        hcnt]
    obtain ⟨n00a, n00b⟩ := hvb (((qy * 2 + 0) * 4 + (qx * 2 + 0)) * 4 + 1) (by omega)
    obtain ⟨n10a, n10b⟩ := hvb (((qy * 2 + 0) * 4 + (qx * 2 + 1)) * 4 + 1) (by omega)
    obtain ⟨n01a, n01b⟩ := hvb (((qy * 2 + 1) * 4 + (qx * 2 + 0)) * 4 + 1) (by omega)
    obtain ⟨n11a, n11b⟩ := hvb (((qy * 2 + 1) * 4 + (qx * 2 + 1)) * 4 + 1) (by omega)
    rw [u8clamp_jsRound _ (by positivity) (by linarith)]
    unfold pixVal
    have i00 : ((qy * 2 + 0) * 4 + (qx * 2 + 0)) * 4 + 1 = (qy * 2 * 4 + qx * 2) * 4 + 1 := by
      ring
    have i10 : ((qy * 2 + 0) * 4 + (qx * 2 + 1)) * 4 + 1
        = (qy * 2 * 4 + (qx * 2 + 1)) * 4 + 1 := by ring
    have i01 : ((qy * 2 + 1) * 4 + (qx * 2 + 0)) * 4 + 1
        = ((qy * 2 + 1) * 4 + qx * 2) * 4 + 1 := by ring
    rw [i00, i10, i01]
    congr 1
    ring
  · rw [H.2.2.1, boxAcc_4x4 d qx qy hqx hqy]
    dsimp only
    rw [hgetc 0 0 2 2 (by norm_num) (by omega) (by omega) (by omega),
        hgetc 1 0 2 2 (by norm_num) (by omega) (by omega) (by omega),
        hgetc 0 1 2 2 (by norm_num) (by omega) (by omega) (by omega),
        hgetc 1 1 2 2 (by norm_num) (by omega) (by omega) (by omega),
        hcnt]
    obtain ⟨n00a, n00b⟩ := hvb (((qy * 2 + 0) * 4 + (qx * 2 + 0)) * 4 + 2) (by omega)
    obtain ⟨n10a, n10b⟩ := hvb (((qy * 2 + 0) * 4 + (qx * 2 + 1)) * 4 + 2) (by omega)
    obtain ⟨n01a, n01b⟩ := hvb (((qy * 2 + 1) * 4 + (qx * 2 + 0)) * 4 + 2) (by omega)
    obtain ⟨n11a, n11b⟩ := hvb (((qy * 2 + 1) * 4 + (qx * 2 + 1)) * 4 + 2) (by omega)
    rw [u8clamp_jsRound _ (by positivity) (by linarith)]
    unfold pixVal
    have i00 : ((qy * 2 + 0) * 4 + (qx * 2 + 0)) * 4 + 2 = (qy * 2 * 4 + qx * 2) * 4 + 2 := by
      ring
    have i10 : ((qy * 2 + 0) * 4 + (qx * 2 + 1)) * 4 + 2
        = (qy * 2 * 4 + (qx * 2 + 1)) * 4 + 2 := by ring
    have i01 : ((qy * 2 + 1) * 4 + (qx * 2 + 0)) * 4 + 2
        = ((qy * 2 + 1) * 4 + qx * 2) * 4 + 2 := by ring
    rw [i00, i10, i01]
    congr 1
    ring
  · rw [H.2.2.2, boxAcc_4x4 d qx qy hqx hqy]
    dsimp only
    rw [hgetc 0 0 3 3 (by norm_num) (by omega) (by omega) (by omega),
        hgetc 1 0 3 3 (by norm_num) (by omega) (by omega) (by omega),
        hgetc 0 1 3 3 (by norm_num) (by omega) (by omega) (by omega),
        hgetc 1 1 3 3 (by norm_num) (by omega) (by omega) (by omega),
        hcnt]
    obtain ⟨n00a, n00b⟩ := hvb (((qy * 2 + 0) * 4 + (qx * 2 + 0)) * 4 + 3) (by omega)
    obtain ⟨n10a, n10b⟩ := hvb (((qy * 2 + 0) * 4 + (qx * 2 + 1)) * 4 + 3) (by omega)
    obtain ⟨n01a, n01b⟩ := hvb (((qy * 2 + 1) * 4 + (qx * 2 + 0)) * 4 + 3) (by omega)
    obtain ⟨n11a, n11b⟩ := hvb (((qy * 2 + 1) * 4 + (qx * 2 + 1)) * 4 + 3) (by omega)
    rw [u8clamp_jsRound _ (by positivity) (by linarith)]
    unfold pixVal
    have i00 : ((qy * 2 + 0) * 4 + (qx * 2 + 0)) * 4 + 3 = (qy * 2 * 4 + qx * 2) * 4 + 3 := by
      ring
    have i10 : ((qy * 2 + 0) * 4 + (qx * 2 + 1)) * 4 + 3
        = (qy * 2 * 4 + (qx * 2 + 1)) * 4 + 3 := by ring
    have i01 : ((qy * 2 + 1) * 4 + (qx * 2 + 0)) * 4 + 3
        = ((qy * 2 + 1) * 4 + qx * 2) * 4 + 3 := by ring
    rw [i00, i10, i01]
    congr 1
    ring

/-- A concrete 4×4 RGBA buffer whose four 2×2 quadrants are each uniform:
byte value depends only on the quadrant column `x/2`, quadrant row `y/2` and
the channel. -/
def quadBuf : Buf :=
  ⟨64, fun n => 10 * (n / 4 % 4 / 2) + 20 * (n / 16 / 2) + 30 * (n % 4)⟩

theorem mipmap_first_level_box_average_witness :
    quadBuf.size = 64 ∧ (∀ i, i < 64 → quadBuf.val i ≤ 255) ∧
    (∀ x, x < 4 → ∀ y, y < 4 → ∀ cc, cc < 4 →
      quadBuf.val ((y * 4 + x) * 4 + cc)
        = quadBuf.val ((2 * (y / 2) * 4 + 2 * (x / 2)) * 4 + cc)) ∧
    ((downsampleMip quadBuf 4 4).1 = 2 ∧ (downsampleMip quadBuf 4 4).2.1 = 2 ∧
      (buildMips 9 [(4, 4, quadBuf)] quadBuf 4 4).getD 1 (0, 0, ⟨0, fun _ => 0⟩)
        = downsampleMip quadBuf 4 4 ∧
      ∀ qx, qx < 2 → ∀ qy, qy < 2 → ∀ c, c < 4 →
        (((downsampleMip quadBuf 4 4).2.2).val ((qy * 2 + qx) * 4 + c) : ℚ)
          = jsRound ((pixVal quadBuf 4 (qx * 2) (qy * 2) c
              + pixVal quadBuf 4 (qx * 2 + 1) (qy * 2) c
              + pixVal quadBuf 4 (qx * 2) (qy * 2 + 1) c
              + pixVal quadBuf 4 (qx * 2 + 1) (qy * 2 + 1) c) / 4)) :=
  ⟨rfl, by decide, by decide,
    mipmap_first_level_box_average quadBuf rfl (by decide) (by decide)⟩

end GlitchBook
